import Mathlib

/-!
Shallow embedding of the ghost-layer exchange core of
`Parallel/DIY/vtkDIYGhostUtilities.cxx`, together with theorems checking the
natural-language specification against it.

Conventions used throughout:
* `ExtentType` is the six-integer extent `[x0,x1,y0,y1,z0,z1]` (C++ `int`
  values are modelled as `Int`; no arithmetic here can overflow 32 bits for the
  inputs considered, and the source performs no wrap-around-dependent tricks).
* Ghost marker arrays are modelled as functions from cell coordinates
  `(i, j, k)` to values.  The source addresses cells through the flat index
  `vtkStructuredData::ComputeCellIdForExtent`, a bijection between cell
  coordinates of the extent and flat ids; the claims under study only depend
  on which cell is addressed, never on the flat layout, so the coordinate view
  is an exact model.
* Floating-point scalars (origins, spacings, quaternions, coordinate values)
  are modelled as `ℚ`, and the tolerance comparators of the source that live
  outside this repository snapshot (`vtkMathUtilities::NearlyEqual`,
  `VTK_DBL_EPSILON`, `std::lround`) are taken as parameters, so every theorem
  about them holds for any instantiation of the comparators.
* C++ `while` loops are embedded with an explicit fuel argument; at every call
  site the fuel passed is a bound, justified in a comment, on the number of
  iterations the loop can execute, so the embedded function computes the exact
  fixpoint of the loop.
-/

namespace VTKGhost

/-- The six-integer extent `[x0, x1, y0, y1, z0, z1]` of a structured grid
(`vtkDIYGhostUtilities::ExtentType`). -/
structure ExtentType where
  x0 : Int
  x1 : Int
  y0 : Int
  y1 : Int
  z0 : Int
  z1 : Int
deriving DecidableEq

/-- Component access `extent[i]` for `i : Fin 6`, as used by the source through
array indexing. -/
def ExtentType.get (e : ExtentType) : Fin 6 → Int
  | 0 => e.x0
  | 1 => e.x1
  | 2 => e.y0
  | 3 => e.y1
  | 4 => e.z0
  | 5 => e.z1

/-- `IsExtentValid` from the source: `min ≤ max` on every axis. -/
def IsExtentValid (e : ExtentType) : Bool :=
  e.x0 ≤ e.x1 && e.y0 ≤ e.y1 && e.z0 ≤ e.z1

/-- The face opposite to face `f`: `Left ↔ Right`, `Front ↔ Back`,
`Bottom ↔ Top` (even face indices are mins, odd ones are maxes). -/
def oppositeFace : Fin 6 → Fin 6
  | 0 => 1
  | 1 => 0
  | 2 => 3
  | 3 => 2
  | 4 => 5
  | 5 => 4

/-- The axis a face index belongs to (0 = X, 1 = Y, 2 = Z). -/
def faceAxis : Fin 6 → Fin 3
  | 0 => 0
  | 1 => 0
  | 2 => 1
  | 3 => 1
  | 4 => 2
  | 5 => 2

/-- Lower bound of extent `e` on axis `a`. -/
def ExtentType.lo (e : ExtentType) : Fin 3 → Int
  | 0 => e.x0
  | 1 => e.y0
  | 2 => e.z0

/-- Upper bound of extent `e` on axis `a`. -/
def ExtentType.hi (e : ExtentType) : Fin 3 → Int
  | 0 => e.x1
  | 1 => e.y1
  | 2 => e.z1

/-! ### Adjacency and overlap bit masks (enum `Adjacency`, enum `Overlap`) -/

/-- The bit `Adjacency::Left`. -/
def Adjacency.Left : Nat := 0x01

/-- The bit `Adjacency::Right`. -/
def Adjacency.Right : Nat := 0x02

/-- The bit `Adjacency::Front`. -/
def Adjacency.Front : Nat := 0x04

/-- The bit `Adjacency::Back`. -/
def Adjacency.Back : Nat := 0x08

/-- The bit `Adjacency::Bottom`. -/
def Adjacency.Bottom : Nat := 0x10

/-- The bit `Adjacency::Top`. -/
def Adjacency.Top : Nat := 0x20

/-- The bit `Overlap::X`. -/
def Overlap.X : Nat := 0x01

/-- The bit `Overlap::Y`. -/
def Overlap.Y : Nat := 0x02

/-- The bits `Overlap::XY`. -/
def Overlap.XY : Nat := 0x03

/-- The bit `Overlap::Z`. -/
def Overlap.Z : Nat := 0x04

/-- The bits `Overlap::XZ`. -/
def Overlap.XZ : Nat := 0x05

/-- The bits `Overlap::YZ`. -/
def Overlap.YZ : Nat := 0x06

/-- `ComputeAdjacencyAndOverlapMasks` from the source.  The boolean factors of
the C expression (`(localExtent[0] == extent[1]) * Adjacency::Left`, etc.) are
rendered as conditionals multiplying the corresponding bit; `|` is `|||` and
`&` is `&&&`.  Returns `(adjacencyMask, overlapMask)`. -/
def computeAdjacencyAndOverlapMasks (localExtent extent : ExtentType) : Nat × Nat :=
  let adjacencyMask :=
    (((if localExtent.x0 == extent.x1 then Adjacency.Left else 0) |||
      (if localExtent.x1 == extent.x0 then Adjacency.Right else 0) |||
      (if localExtent.y0 == extent.y1 then Adjacency.Front else 0) |||
      (if localExtent.y1 == extent.y0 then Adjacency.Back else 0) |||
      (if localExtent.z0 == extent.z1 then Adjacency.Bottom else 0) |||
      (if localExtent.z1 == extent.z0 then Adjacency.Top else 0)) &&&
     ((if !(localExtent.x0 == localExtent.x1) then Adjacency.Left ||| Adjacency.Right else 0) |||
      (if !(localExtent.y0 == localExtent.y1) then Adjacency.Front ||| Adjacency.Back else 0) |||
      (if !(localExtent.z0 == localExtent.z1) then Adjacency.Bottom ||| Adjacency.Top else 0)))
  let overlapMask :=
    (if localExtent.x0 < extent.x1 && extent.x0 < localExtent.x1 then 1 else 0) |||
    ((if localExtent.y0 < extent.y1 && extent.y0 < localExtent.y1 then 1 else 0) <<< 1) |||
    ((if localExtent.z0 < extent.z1 && extent.z0 < localExtent.z1 then 1 else 0) <<< 2)
  (adjacencyMask, overlapMask)

/-! ### Ghost peeler (`PeelOffGhostLayers`) -/

/-- The walking cursor of `PeelOffGhostLayers`: the position `ijk` and the
per-dimension lock flags `lock`. -/
structure PeelCursor where
  i : Int
  j : Int
  k : Int
  lock0 : Bool
  lock1 : Bool
  lock2 : Bool
deriving DecidableEq

/-- Loop condition of the lower (bottom-left-front) corner walk of
`PeelOffGhostLayers`:
`(!lock[0] || !lock[1] || !lock[2]) && (lock[0] || ijk[0] > imin) && … &&
!ghosts(ijk)`. -/
def peelLowerCond (ghosts : Int → Int → Int → Bool) (imin jmin kmin : Int)
    (c : PeelCursor) : Bool :=
  (!c.lock0 || !c.lock1 || !c.lock2) && (c.lock0 || imin < c.i) &&
    (c.lock1 || jmin < c.j) && (c.lock2 || kmin < c.k) && !ghosts c.i c.j c.k

/-- Loop body of the lower corner walk: for each unlocked dimension in order,
step the cursor down one; if the targeted cell is a ghost, step back and lock
the dimension.  The ghost test uses the partially updated cursor, exactly as
the C loop does. -/
def peelLowerBody (ghosts : Int → Int → Int → Bool) (c : PeelCursor) : PeelCursor :=
  let c :=
    if c.lock0 then c
    else if ghosts (c.i - 1) c.j c.k then { c with lock0 := true }
    else { c with i := c.i - 1 }
  let c :=
    if c.lock1 then c
    else if ghosts c.i (c.j - 1) c.k then { c with lock1 := true }
    else { c with j := c.j - 1 }
  if c.lock2 then c
  else if ghosts c.i c.j (c.k - 1) then { c with lock2 := true }
  else { c with k := c.k - 1 }

/-- Loop condition of the upper (top-right-back) corner walk. -/
def peelUpperCond (ghosts : Int → Int → Int → Bool) (imax jmax kmax : Int)
    (c : PeelCursor) : Bool :=
  (!c.lock0 || !c.lock1 || !c.lock2) && (c.lock0 || c.i < imax - 1) &&
    (c.lock1 || c.j < jmax - 1) && (c.lock2 || c.k < kmax - 1) && !ghosts c.i c.j c.k

/-- Loop body of the upper corner walk (steps up instead of down). -/
def peelUpperBody (ghosts : Int → Int → Int → Bool) (c : PeelCursor) : PeelCursor :=
  let c :=
    if c.lock0 then c
    else if ghosts (c.i + 1) c.j c.k then { c with lock0 := true }
    else { c with i := c.i + 1 }
  let c :=
    if c.lock1 then c
    else if ghosts c.i (c.j + 1) c.k then { c with lock1 := true }
    else { c with j := c.j + 1 }
  if c.lock2 then c
  else if ghosts c.i c.j (c.k + 1) then { c with lock2 := true }
  else { c with k := c.k + 1 }

/-- Generic fuelled `while` loop.  All call sites pass fuel that provably
bounds the iteration count of the corresponding C loop, so this computes the
loop's exact fixpoint. -/
def whileLoop (cond : PeelCursor → Bool) (body : PeelCursor → PeelCursor) :
    Nat → PeelCursor → PeelCursor
  | 0, c => c
  | fuel + 1, c => if cond c then whileLoop cond body fuel (body c) else c

/-- Fuel bound for the peel loops.  Every iteration of either corner walk
either decrements the coordinate of some unlocked dimension toward its bound
or locks at least one dimension (and locked dimensions stay locked), so the
iteration count is bounded by the sum of the three axis widths plus 3. -/
def peelFuel (gridExtent : ExtentType) : Nat :=
  ((gridExtent.x1 - gridExtent.x0) + (gridExtent.y1 - gridExtent.y0) +
    (gridExtent.z1 - gridExtent.z0)).toNat + 3

/-- `PeelOffGhostLayers` from the source.  `ghosts` is the cell ghost-marker
array viewed as a predicate on cell coordinates (`none` when the grid carries
no cell ghost array), `ghostLevel` the ghost level of the input grid. -/
def PeelOffGhostLayers (gridExtent : ExtentType)
    (ghosts : Option (Int → Int → Int → Bool)) (ghostLevel : Int) : ExtentType :=
  match ghosts with
  | none => gridExtent
  | some g =>
    -- `std::max` gives thickness to degenerate dimensions.
    let imin := gridExtent.x0
    let imax := max gridExtent.x1 (gridExtent.x0 + 1)
    let jmin := gridExtent.y0
    let jmax := max gridExtent.y1 (gridExtent.y0 + 1)
    let kmin := gridExtent.z0
    let kmax := max gridExtent.z1 (gridExtent.z0 + 1)
    let lock0 := gridExtent.x0 == gridExtent.x1
    let lock1 := gridExtent.y0 == gridExtent.y1
    let lock2 := gridExtent.z0 == gridExtent.z1
    let lowerStart : PeelCursor :=
      ⟨min (imin + ghostLevel) (imax - 1), min (jmin + ghostLevel) (jmax - 1),
        min (kmin + ghostLevel) (kmax - 1), lock0, lock1, lock2⟩
    let cl := whileLoop (peelLowerCond g imin jmin kmin) (peelLowerBody g)
      (peelFuel gridExtent) lowerStart
    let upperStart : PeelCursor :=
      ⟨max (imax - 1 - ghostLevel) imin, max (jmax - 1 - ghostLevel) jmin,
        max (kmax - 1 - ghostLevel) kmin, lock0, lock1, lock2⟩
    let cu := whileLoop (peelUpperCond g imax jmax kmax) (peelUpperBody g)
      (peelFuel gridExtent) upperStart
    ⟨cl.i, cu.i + (if gridExtent.x0 != gridExtent.x1 then 1 else 0),
      cl.j, cu.j + (if gridExtent.y0 != gridExtent.y1 then 1 else 0),
      cl.k, cu.k + (if gridExtent.z0 != gridExtent.z1 then 1 else 0)⟩

/-! ### Uniform-grid matcher (`SynchronizeGridExtents`, `ImageDataBlockStructure`) -/

/-- A triple of scalars (`VectorType`). -/
structure Vector3 where
  v0 : ℚ
  v1 : ℚ
  v2 : ℚ
deriving DecidableEq

/-- A quadruple of scalars (`QuaternionType`). -/
structure Quaternion4 where
  q0 : ℚ
  q1 : ℚ
  q2 : ℚ
  q3 : ℚ
deriving DecidableEq

/-- `vtkMath::Dot` on 3-vectors. -/
def dot3 (a b : Vector3) : ℚ := a.v0 * b.v0 + a.v1 * b.v1 + a.v2 * b.v2

/-- `vtkMath::SquaredNorm`. -/
def squaredNorm3 (a : Vector3) : ℚ := dot3 a a

/-- `vtkMath::Dot<double, 4>` on quaternions. -/
def dot4 (a b : Quaternion4) : ℚ :=
  a.q0 * b.q0 + a.q1 * b.q1 + a.q2 * b.q2 + a.q3 * b.q3

/-- `ImageDataBlockStructure`: the descriptor of a uniform-grid block. -/
structure ImageDataBlockStructure where
  Extent : ExtentType
  DataDimension : Int
  Origin : Vector3
  Spacing : Vector3
  OrientationQuaternion : Quaternion4
deriving DecidableEq

/-- The numeric comparators of the matcher that live outside this repository
snapshot and are therefore kept abstract: `vtkMathUtilities::NearlyEqual`,
the machine epsilon `VTK_DBL_EPSILON` and the rounding `std::lround`.  The
theorems below hold for every instantiation. -/
structure FloatOps where
  nearlyEqual : ℚ → ℚ → Bool
  dblEpsilon : ℚ
  lround : ℚ → Int

/-- `SynchronizeGridExtents` (overload on `ImageDataBlockStructure`) from the
source: reject when the remote extent is inverted, dimensions differ, spacings
fail the dot-product test or the quaternion inner product is not within
`VTK_DBL_EPSILON` of 1; otherwise translate the remote extent by the negated
per-axis rounded origin shift.  Returns `some shiftedExtent` on a match. -/
def SynchronizeGridExtentsImage (ops : FloatOps)
    (localBlockStructure blockStructure : ImageDataBlockStructure) :
    Option ExtentType :=
  let localOrigin := localBlockStructure.Origin
  let localSpacing := localBlockStructure.Spacing
  let localQ := localBlockStructure.OrientationQuaternion
  let localDim := localBlockStructure.DataDimension
  let extent := blockStructure.Extent
  let q := blockStructure.OrientationQuaternion
  let spacing := blockStructure.Spacing
  let dim := blockStructure.DataDimension
  if extent.x0 > extent.x1 || extent.y0 > extent.y1 || extent.z0 > extent.z1 ||
      dim != localDim ||
      !ops.nearlyEqual (dot3 spacing localSpacing) (squaredNorm3 localSpacing) ||
      !(|dot4 q localQ - 1| < ops.dblEpsilon) then
    none
  else
    let origin := blockStructure.Origin
    let d0 := ops.lround ((origin.v0 - localOrigin.v0) / spacing.v0)
    let d1 := ops.lround ((origin.v1 - localOrigin.v1) / spacing.v1)
    let d2 := ops.lround ((origin.v2 - localOrigin.v2) / spacing.v2)
    some ⟨extent.x0 - d0, extent.x1 - d0, extent.y0 - d1, extent.y1 - d1,
      extent.z0 - d2, extent.z1 - d2⟩

/-! ### Rectilinear-grid matcher (`RectilinearGridFittingWorker`,
`SynchronizeGridExtents` on `RectilinearGridBlockStructure`)

Coordinate arrays are modelled as `List Int`: the worker is dispatched on the
concrete element type of the arrays and uses the integer comparator
(`Comparator<true>::Equals`, exact equality) on integer-typed arrays, which is
the case embedded here.  `GetValue(id)` on an index the source has bounds
checked is `List.getD _ id 0`. -/

/-- The result fields of `RectilinearGridFittingWorker` (`MinId`, `MaxId` are
overlap bounds as indices into the remote array, `LocalMinId`, `LocalMaxId`
into the local one; `Overlaps` tells whether a matching run was found). -/
structure FitState where
  MinId : Int
  MaxId : Int
  LocalMinId : Int
  LocalMaxId : Int
  Overlaps : Bool
deriving DecidableEq

/-- Initial worker state: `MinId = 0, MaxId = -1, LocalMinId = 0,
LocalMaxId = -1, Overlaps = false`. -/
def FitState.init : FitState := ⟨0, -1, 0, -1, false⟩

/-- The scanning loop of `RectilinearGridFittingWorker::FitArrays`:
advance `id` while `lowerMin[id] < upperMin[0]` and the values are not equal.
Fuel: `id` increases by one per iteration and the loop stops at
`lowerMin.length`, so `lowerMin.length + 1` iterations suffice. -/
def fitScan (lowerMin : List Int) (target : Int) : Nat → Nat → Nat
  | 0, id => id
  | fuel + 1, id =>
    if id < lowerMin.length &&
        (lowerMin.getD id 0 < target && !(lowerMin.getD id 0 == target)) then
      fitScan lowerMin target fuel (id + 1)
    else id

/-- The comparison loop of `SubArraysAreEqual`: advance both indices while in
range and values are equal.  Fuel: `lowerId` increases by one per iteration up
to `lower.length`, so `lower.length + 1` iterations suffice. -/
def subWalk (lower upper : List Int) : Nat → Nat → Nat → Nat × Nat
  | 0, lowerId, upperId => (lowerId, upperId)
  | fuel + 1, lowerId, upperId =>
    if lowerId < lower.length && upperId < upper.length &&
        lower.getD lowerId 0 == upper.getD upperId 0 then
      subWalk lower upper fuel (lowerId + 1) (upperId + 1)
    else (lowerId, upperId)

/-- `RectilinearGridFittingWorker::SubArraysAreEqual`: returns the updated
state and whether the lower array was exhausted (in which case the overlap
bounds are recorded and `Overlaps` is set). -/
def SubArraysAreEqual (st : FitState) (lower upper : List Int) (lowerId : Nat) :
    FitState × Bool :=
  let (lid, uid) := subWalk lower upper (lower.length + 1) lowerId 0
  if lid = lower.length then
    ({ st with
        MaxId := (lid : Int) - 1
        LocalMaxId := (uid : Int) - 1
        Overlaps := true }, true)
  else (st, false)

/-- `RectilinearGridFittingWorker::FitArrays`. -/
def FitArrays (st : FitState) (lowerMaxArray upperMaxArray : List Int) : FitState :=
  let lowerMinArray :=
    if lowerMaxArray.getD 0 0 > upperMaxArray.getD 0 0 then upperMaxArray
    else lowerMaxArray
  let upperMinArray :=
    if lowerMaxArray.getD 0 0 < upperMaxArray.getD 0 0 then upperMaxArray
    else lowerMaxArray
  let id := fitScan lowerMinArray (upperMinArray.getD 0 0)
    (lowerMinArray.length + 1) 0
  let (st1, ok) := SubArraysAreEqual st lowerMinArray upperMinArray id
  if ok then
    let st2 := { st1 with LocalMinId := 0, MinId := (id : Int) }
    if lowerMaxArray.getD 0 0 > upperMaxArray.getD 0 0 then
      { st2 with MaxId := st2.LocalMaxId, LocalMaxId := st2.MaxId }
    else st2
  else st1

/-- `RectilinearGridFittingWorker::operator()`: `localArray` is the local
coordinate array, `array` the remote one stored in the worker. -/
def FitWorkerRun (localArray array : List Int) : FitState :=
  if localArray.getD (localArray.length - 1) 0 > array.getD (array.length - 1) 0 then
    FitArrays FitState.init array localArray
  else
    let st := FitArrays FitState.init localArray array
    { st with
        MinId := st.LocalMinId
        LocalMinId := st.MinId
        MaxId := st.LocalMaxId
        LocalMaxId := st.MaxId }

/-- `RectilinearGridBlockStructure`: extent, data dimension and the three
coordinate arrays. -/
structure RectilinearGridBlockStructure where
  Extent : ExtentType
  DataDimension : Int
  XCoordinates : List Int
  YCoordinates : List Int
  ZCoordinates : List Int
deriving DecidableEq

/-- `SynchronizeGridExtents` (overload on `RectilinearGridBlockStructure`)
from the source. -/
def SynchronizeGridExtentsRect
    (localBlockStructure blockStructure : RectilinearGridBlockStructure) :
    Option ExtentType :=
  let extent := blockStructure.Extent
  if localBlockStructure.DataDimension != blockStructure.DataDimension ||
      extent.x0 > extent.x1 || extent.y0 > extent.y1 || extent.z0 > extent.z1 then
    none
  else
    let localExtent := localBlockStructure.Extent
    let xWorker := FitWorkerRun localBlockStructure.XCoordinates blockStructure.XCoordinates
    let yWorker := FitWorkerRun localBlockStructure.YCoordinates blockStructure.YCoordinates
    let zWorker := FitWorkerRun localBlockStructure.ZCoordinates blockStructure.ZCoordinates
    if (!xWorker.Overlaps || !yWorker.Overlaps || !zWorker.Overlaps) &&
        (xWorker.MinId != xWorker.MaxId || yWorker.MinId != yWorker.MaxId ||
          zWorker.MinId != zWorker.MaxId) then
      none
    else
      let d0 := extent.x0 + xWorker.MinId - localExtent.x0 - xWorker.LocalMinId
      let d1 := extent.y0 + yWorker.MinId - localExtent.y0 - yWorker.LocalMinId
      let d2 := extent.z0 + zWorker.MinId - localExtent.z0 - zWorker.LocalMinId
      some ⟨extent.x0 - d0, extent.x1 - d0, extent.y0 - d1, extent.y1 - d1,
        extent.z0 - d2, extent.z1 - d2⟩

/-! ### Link builder and ghost allocator (`AddGhostLayerToGrid`,
`UpdateOutputGridStructure`) -/

/-- Write component `i` of an extent (array assignment `extent[i] = v`). -/
def ExtentType.set (e : ExtentType) : Fin 6 → Int → ExtentType
  | 0, v => { e with x0 := v }
  | 1, v => { e with x1 := v }
  | 2, v => { e with y0 := v }
  | 3, v => { e with y1 := v }
  | 4, v => { e with z0 := v }
  | 5, v => { e with z1 := v }

/-- The extent whose six entries are all zero (initial value of the per-side
ghost thickness accumulator `ExtentGhostThickness`). -/
def zeroExtent : ExtentType := ⟨0, 0, 0, 0, 0, 0⟩

/-- The block-local information of a grid block
(`GridBlockStructure::Information` fields used by the allocator): the peeled
extent and the per-side ghost thickness accumulator. -/
structure GridBlockInformation where
  Extent : ExtentType
  ExtentGhostThickness : ExtentType
deriving DecidableEq

/-- The mutable per-neighbor state of a uniform-grid block structure used by
the link builder: the received descriptor, the extent to be widened with new
ghosts, and the stored adjacency mask. -/
structure ImageBlockStructureState where
  Structure : ImageDataBlockStructure
  ExtentWithNewGhosts : ExtentType
  AdjacencyMask : Nat
deriving DecidableEq

/-- `AddGhostLayerToGrid` from the source (uniform-grid instantiation; the
`AddGhostLayerOfGridPoints` call is a no-op for image data).  `idx` is the
side of the local extent on which the face overlap occurs. -/
def AddGhostLayerToGrid (idx : Fin 6) (outputGhostLevels : Int)
    (blockStructure : ImageBlockStructureState)
    (blockInformation : GridBlockInformation) :
    ImageBlockStructureState × GridBlockInformation :=
  let extent := blockStructure.Structure.Extent
  let upperBound : Bool := idx.val % 2 == 1
  let oppositeIdx := oppositeFace idx
  let localOutputGhostLevels :=
    min outputGhostLevels |extent.get idx - extent.get oppositeIdx|
  let blockInformation :=
    { blockInformation with
        ExtentGhostThickness := blockInformation.ExtentGhostThickness.set idx
          (max (blockInformation.ExtentGhostThickness.get idx) localOutputGhostLevels) }
  let blockStructure :=
    { blockStructure with
        ExtentWithNewGhosts := blockStructure.ExtentWithNewGhosts.set oppositeIdx
          (blockStructure.ExtentWithNewGhosts.get oppositeIdx +
            (if upperBound then -1 else 1) * localOutputGhostLevels) }
  (blockStructure, blockInformation)

/-- A sequence of `AddGhostLayerToGrid` calls as issued by `LinkGrid` over the
matched neighbors: each event carries the side index `idx` and the neighbor
block structure the call receives.  Only the shared `blockInformation`
accumulator is threaded through. -/
def applyGhostLayerEvents (outputGhostLevels : Int)
    (events : List (Fin 6 × ImageBlockStructureState))
    (info : GridBlockInformation) : GridBlockInformation :=
  events.foldl (fun info ev => (AddGhostLayerToGrid ev.1 outputGhostLevels ev.2 info).2) info

/-- `UpdateOutputGridStructure` from the source, restricted to the extent
computation (`UpdateOutputGridPoints` is a no-op for image data): widen the
peeled extent by the accumulated ghost thickness on each side. -/
def UpdateOutputGridStructure (blockInformation : GridBlockInformation) : ExtentType :=
  let ghostThickness := blockInformation.ExtentGhostThickness
  let e := blockInformation.Extent
  ⟨e.x0 - ghostThickness.x0, e.x1 + ghostThickness.x1,
    e.y0 - ghostThickness.y0, e.y1 + ghostThickness.y1,
    e.z0 - ghostThickness.z0, e.z1 + ghostThickness.z1⟩

/-! ### Interface point-id computation (`ComputeGridInterfacePointIds`) -/

/-- The closed integer range `[lo, hi]` as a list (empty when `hi < lo`),
enumerated in increasing order as the `for` loops of the source do. -/
def intRangeList (lo hi : Int) : List Int :=
  (List.range (hi + 1 - lo).toNat).map (fun n => lo + n)

/-- `ComputeGridInterfacePointIds` from the source.  `pointId i j k` stands
for `vtkStructuredData::ComputePointIdForExtent(gridExtent, ijk)`, kept
abstract: the claims depend only on which points are enumerated and in which
order.  The returned list is produced by the `k`-outer, `j`-middle, `i`-inner
loop nest of the source. -/
def ComputeGridInterfacePointIds (adjacencyMask : Nat)
    (localExtent extent : ExtentType) (pointId : Int → Int → Int → Int) :
    List Int :=
  let imin := max extent.x0 localExtent.x0
  let imax := min extent.x1 localExtent.x1
  let jmin := max extent.y0 localExtent.y0
  let jmax := min extent.y1 localExtent.y1
  let kmin := max extent.z0 localExtent.z0
  let kmax := min extent.z1 localExtent.z1
  -- Give ownership of the non-ghost version of a point to the most
  -- right / back / top grid.
  let imax := if adjacencyMask &&& Adjacency.Right ≠ 0 then imax - 1 else imax
  let jmax := if adjacencyMask &&& Adjacency.Back ≠ 0 then jmax - 1 else jmax
  let kmax := if adjacencyMask &&& Adjacency.Top ≠ 0 then kmax - 1 else kmax
  (intRangeList kmin kmax).flatMap (fun k =>
    (intRangeList jmin jmax).flatMap (fun j =>
      (intRangeList imin imax).map (fun i => pointId i j k)))

/-- `ComputeOutputGridInterfacePointIds` from the source: the same
computation on the output grid's extent, with the adjacency mask bit-shifted
left by one. -/
def ComputeOutputGridInterfacePointIds (adjacencyMask : Nat)
    (gridExtent extent : ExtentType) (pointId : Int → Int → Int → Int) :
    List Int :=
  ComputeGridInterfacePointIds (adjacencyMask <<< 1) gridExtent extent pointId

/-! ### Link-map computation (`LinkGrid`, `ComputeGridLinkMapAndAllocateGhosts`)
for uniform grids -/

/-- The classification performed by `LinkGrid`: given the grid dimension and
the adjacency and overlap masks, return the list of local extent side indices
`idx` that receive a ghost layer (`some idxs`, in the order the source issues
the `AddGhostLayerToGrid` calls), or `none` when the blocks are not connected
and the neighbor is erased.  The three branches are the face, edge and corner
cases of the source, with their exact guards and `switch` tables. -/
def LinkGridClassify (dim : Int) (adjacencyMask overlapMask : Nat) :
    Option (List (Fin 6)) :=
  if ((dim == 3 && overlapMask == Overlap.YZ) ||
        (dim == 2 && overlapMask &&& Overlap.YZ ≠ 0) ||
        (dim == 1 && overlapMask == 0)) &&
      (adjacencyMask &&& (Adjacency.Left ||| Adjacency.Right) ≠ 0) ||
     ((dim == 3 && overlapMask == Overlap.XZ) ||
        (dim == 2 && overlapMask &&& Overlap.XZ ≠ 0)) &&
      (adjacencyMask &&& (Adjacency.Front ||| Adjacency.Back) ≠ 0) ||
     ((dim == 3 && overlapMask == Overlap.XY) ||
        (dim == 2 && overlapMask &&& Overlap.XY ≠ 0)) &&
      (adjacencyMask &&& (Adjacency.Bottom ||| Adjacency.Top) ≠ 0) then
    if adjacencyMask == Adjacency.Left then some [0]
    else if adjacencyMask == Adjacency.Right then some [1]
    else if adjacencyMask == Adjacency.Front then some [2]
    else if adjacencyMask == Adjacency.Back then some [3]
    else if adjacencyMask == Adjacency.Bottom then some [4]
    else if adjacencyMask == Adjacency.Top then some [5]
    else none
  else if ((dim == 3 && overlapMask == Overlap.X) || (dim == 2 && overlapMask == 0)) &&
        (adjacencyMask &&& (Adjacency.Front ||| Adjacency.Back) ≠ 0) &&
        (adjacencyMask &&& (Adjacency.Bottom ||| Adjacency.Top) ≠ 0) ||
      ((dim == 3 && overlapMask == Overlap.Y) || (dim == 2 && overlapMask == 0)) &&
        (adjacencyMask &&& (Adjacency.Left ||| Adjacency.Right) ≠ 0) &&
        (adjacencyMask &&& (Adjacency.Bottom ||| Adjacency.Top) ≠ 0) ||
      ((dim == 3 && overlapMask == Overlap.Z) || (dim == 2 && overlapMask == 0)) &&
        (adjacencyMask &&& (Adjacency.Left ||| Adjacency.Right) ≠ 0) &&
        (adjacencyMask &&& (Adjacency.Front ||| Adjacency.Back) ≠ 0) then
    if adjacencyMask == Adjacency.Front ||| Adjacency.Bottom then some [2, 4]
    else if adjacencyMask == Adjacency.Front ||| Adjacency.Top then some [2, 5]
    else if adjacencyMask == Adjacency.Back ||| Adjacency.Bottom then some [3, 4]
    else if adjacencyMask == Adjacency.Back ||| Adjacency.Top then some [3, 5]
    else if adjacencyMask == Adjacency.Left ||| Adjacency.Bottom then some [0, 4]
    else if adjacencyMask == Adjacency.Left ||| Adjacency.Top then some [0, 5]
    else if adjacencyMask == Adjacency.Right ||| Adjacency.Bottom then some [1, 4]
    else if adjacencyMask == Adjacency.Right ||| Adjacency.Top then some [1, 5]
    else if adjacencyMask == Adjacency.Left ||| Adjacency.Front then some [0, 2]
    else if adjacencyMask == Adjacency.Left ||| Adjacency.Back then some [0, 3]
    else if adjacencyMask == Adjacency.Right ||| Adjacency.Front then some [1, 2]
    else if adjacencyMask == Adjacency.Right ||| Adjacency.Back then some [1, 3]
    else none
  else
    if adjacencyMask == Adjacency.Left ||| Adjacency.Front ||| Adjacency.Bottom then
      some [0, 2, 4]
    else if adjacencyMask == Adjacency.Left ||| Adjacency.Front ||| Adjacency.Top then
      some [0, 2, 5]
    else if adjacencyMask == Adjacency.Left ||| Adjacency.Back ||| Adjacency.Bottom then
      some [0, 3, 4]
    else if adjacencyMask == Adjacency.Left ||| Adjacency.Back ||| Adjacency.Top then
      some [0, 3, 5]
    else if adjacencyMask == Adjacency.Right ||| Adjacency.Front ||| Adjacency.Bottom then
      some [1, 2, 4]
    else if adjacencyMask == Adjacency.Right ||| Adjacency.Front ||| Adjacency.Top then
      some [1, 2, 5]
    else if adjacencyMask == Adjacency.Right ||| Adjacency.Back ||| Adjacency.Bottom then
      some [1, 3, 4]
    else if adjacencyMask == Adjacency.Right ||| Adjacency.Back ||| Adjacency.Top then
      some [1, 3, 5]
    else none

/-- One iteration of the neighbor loop of `ComputeGridLinkMapAndAllocateGhosts`
on one `(gid, blockStructure)` entry: synchronize extents (erasing the entry
on failure), compute and store the adjacency and overlap masks, reset
`ExtentWithNewGhosts` to the neighbor's extent, then classify and either erase
the entry or issue the `AddGhostLayerToGrid` calls and record the link.
Returns the retained entry (if any), the updated information and the link
additions. -/
def processNeighborEntry (ops : FloatOps) (outputGhostLevels : Int) (dim : Int)
    (localBlockStructure : ImageDataBlockStructure) (localExtent : ExtentType)
    (entry : Int × ImageBlockStructureState) (info : GridBlockInformation) :
    Option (Int × ImageBlockStructureState) × GridBlockInformation × List Int :=
  let gid := entry.1
  let bs := entry.2
  match SynchronizeGridExtentsImage ops localBlockStructure bs.Structure with
  | none => (none, info, [])
  | some shiftedExtent =>
    let (adjacencyMask, overlapMask) :=
      computeAdjacencyAndOverlapMasks localExtent shiftedExtent
    let bs := { bs with
        AdjacencyMask := adjacencyMask
        ExtentWithNewGhosts := bs.Structure.Extent }
    match LinkGridClassify dim adjacencyMask overlapMask with
    | none => (none, info, [])
    | some idxs =>
      let (bs, info) := idxs.foldl
        (fun st idx => AddGhostLayerToGrid idx outputGhostLevels st.1 st.2) (bs, info)
      (some (gid, bs), info, [gid])

/-- The per-block state produced by `ComputeGridLinkMapAndAllocateGhosts`. -/
structure ImageBlockResult where
  BlockStructures : List (Int × ImageBlockStructureState)
  Information : GridBlockInformation
  Links : List Int
  OutputExtent : Option ExtentType
deriving DecidableEq

/-- The per-block input of `ComputeGridLinkMapAndAllocateGhosts`: the block's
information extent (peeled), its geometry (used to build the local block
structure), the data dimension of its output, and the block structures
received in the descriptor exchange round. -/
structure ImageBlockInput where
  Extent : ExtentType
  Origin : Vector3
  Spacing : Vector3
  OrientationQuaternion : Quaternion4
  DataDimension : Int
  OutputDataDimension : Int
  BlockStructures : List (Int × ImageBlockStructureState)
deriving DecidableEq

/-- The body of `ComputeGridLinkMapAndAllocateGhosts` for one block: when the
local extent is inverted on some axis, the block's `BlockStructures` are
cleared and the block is skipped (its link set stays empty and its output is
not restructured); otherwise every received block structure is processed in
order and the output extent is enlarged. -/
def processGridBlock (ops : FloatOps) (outputGhostLevels : Int)
    (block : ImageBlockInput) : ImageBlockResult :=
  let localExtent := block.Extent
  if localExtent.x0 > localExtent.x1 || localExtent.y0 > localExtent.y1 ||
      localExtent.z0 > localExtent.z1 then
    { BlockStructures := []
      Information := ⟨localExtent, zeroExtent⟩
      Links := []
      OutputExtent := none }
  else
    let dim := block.OutputDataDimension
    let localBlockStructure : ImageDataBlockStructure :=
      ⟨block.Extent, block.DataDimension, block.Origin, block.Spacing,
        block.OrientationQuaternion⟩
    let start : List (Int × ImageBlockStructureState) × GridBlockInformation × List Int :=
      ([], ⟨localExtent, zeroExtent⟩, [])
    let (structures, info, links) := block.BlockStructures.foldl
      (fun acc entry =>
        let (kept, info, newLinks) :=
          processNeighborEntry ops outputGhostLevels dim localBlockStructure
            localExtent entry acc.2.1
        (acc.1 ++ kept.toList, info, acc.2.2 ++ newLinks))
      start
    { BlockStructures := structures
      Information := info
      Links := links
      OutputExtent := some (UpdateOutputGridStructure info) }

/-- `ComputeGridLinkMapAndAllocateGhosts` from the source (uniform-grid
instantiation): every local block is processed independently in order. -/
def ComputeGridLinkMapAndAllocateGhosts (ops : FloatOps) (outputGhostLevels : Int)
    (blocks : List ImageBlockInput) : List ImageBlockResult :=
  blocks.map (processGridBlock ops outputGhostLevels)

/-- The sending half of round 0 of `ExchangeBlockStructures` (`vtkImageData`
overload): after `PeelOffGhostLayers` set the block's information extent, the
block enqueues, for every target of the out-link other than itself, its data
dimension, origin, spacing, orientation quaternion and extent — the exact
fields from which the receiver constructs an `ImageDataBlockStructure`.  Each
sent message is modelled as the target gid paired with the descriptor the
receiver will build. -/
def ExchangeBlockStructuresImageSends (myBlockId : Int)
    (peeledExtent : ExtentType) (origin spacing : Vector3) (q : Quaternion4)
    (dimension : Int) (outLinkTargets : List Int) :
    List (Int × ImageDataBlockStructure) :=
  outLinkTargets.filterMap (fun gid =>
    if gid != myBlockId then
      some (gid, ⟨peeledExtent, dimension, origin, spacing, q⟩)
    else none)

/-! ### Hidden-ghost painting (`FillGridHiddenGhosts`) -/

/-- A ghost marker array viewed through cell (respectively point) coordinates;
values are the marker bytes. -/
def GhostArray : Type := Int → Int → Int → Nat

/-- `vtkDataSetAttributes::CellGhostTypes::HIDDENCELL`. -/
def HIDDENCELL : Nat := 32

/-- `vtkDataSetAttributes::PointGhostTypes::HIDDENPOINT`. -/
def HIDDENPOINT : Nat := 2

/-- `FillGridCellArray` from the source: set every cell of the half-open box
`[imin, imax) × [jmin, jmax) × [kmin, kmax)` to `val`.  The source writes
through `SetValue` at the flat cell id of each visited coordinate; the
coordinate view of those writes is this pointwise override. -/
def FillGridCellArray (imin imax jmin jmax kmin kmax : Int) (val : Nat)
    (a : GhostArray) : GhostArray :=
  fun i j k =>
    if imin ≤ i ∧ i < imax ∧ jmin ≤ j ∧ j < jmax ∧ kmin ≤ k ∧ k < kmax then val
    else a i j k

/-- `FillGridPointArray` from the source: same as `FillGridCellArray` with
closed (inclusive) loop bounds. -/
def FillGridPointArray (imin imax jmin jmax kmin kmax : Int) (val : Nat)
    (a : GhostArray) : GhostArray :=
  fun i j k =>
    if imin ≤ i ∧ i ≤ imax ∧ jmin ≤ j ∧ j ≤ jmax ∧ kmin ≤ k ∧ k ≤ kmax then val
    else a i j k

/-- `FillGridHiddenGhosts` from the source, for one output grid:
`localExtent` is the enlarged output extent, `localExtentWithNoGhosts` the
block's information extent.  Both end slabs of every non-degenerate dimension
are painted with the hidden markers in the cell and point ghost arrays, with
the degenerate-dimension corrections of the source.  Returns the updated
`(cell, point)` ghost arrays; the cell writes and the point writes act on
distinct arrays, so each component chains its writes in source order. -/
def FillGridHiddenGhosts (localExtent localExtentWithNoGhosts : ExtentType)
    (ghostCellArray ghostPointArray : GhostArray) : GhostArray × GhostArray :=
  let lE := localExtent
  let lEN := localExtentWithNoGhosts
  let deg0 : Bool := lE.x0 == lE.x1
  let deg1 : Bool := lE.y0 == lE.y1
  let deg2 : Bool := lE.z0 == lE.z1
  let b0 : Int := if deg0 then 1 else 0
  let b1 : Int := if deg1 then 1 else 0
  let b2 : Int := if deg2 then 1 else 0
  let c := ghostCellArray
  let p := ghostPointArray
  let c := if !deg0 then
      FillGridCellArray lEN.x1 lE.x1 lE.y0 (lE.y1 + b1) lE.z0 (lE.z1 + b2) HIDDENCELL
        (FillGridCellArray lE.x0 lEN.x0 lE.y0 (lE.y1 + b1) lE.z0 (lE.z1 + b2) HIDDENCELL c)
    else c
  let p := if !deg0 then
      FillGridPointArray (lEN.x1 + 1) lE.x1 lE.y0 lE.y1 lE.z0 lE.z1 HIDDENPOINT
        (FillGridPointArray lE.x0 (lEN.x0 - 1) lE.y0 lE.y1 lE.z0 lE.z1 HIDDENPOINT p)
    else p
  let c := if !deg1 then
      FillGridCellArray lE.x0 (lE.x1 + b0) lEN.y1 lE.y1 lE.z0 (lE.z1 + b2) HIDDENCELL
        (FillGridCellArray lE.x0 (lE.x1 + b0) lE.y0 lEN.y0 lE.z0 (lE.z1 + b2) HIDDENCELL c)
    else c
  let p := if !deg1 then
      FillGridPointArray lE.x0 lE.x1 (lEN.y1 + 1) lE.y1 lE.z0 lE.z1 HIDDENPOINT
        (FillGridPointArray lE.x0 lE.x1 lE.y0 (lEN.y0 - 1) lE.z0 lE.z1 HIDDENPOINT p)
    else p
  let c := if !deg2 then
      FillGridCellArray lE.x0 (lE.x1 + b0) lE.y0 (lE.y1 + b1) lEN.z1 lE.z1 HIDDENCELL
        (FillGridCellArray lE.x0 (lE.x1 + b0) lE.y0 (lE.y1 + b1) lE.z0 lEN.z0 HIDDENCELL c)
    else c
  let p := if !deg2 then
      FillGridPointArray lE.x0 lE.x1 lE.y0 lE.y1 (lEN.z1 + 1) lE.z1 HIDDENPOINT
        (FillGridPointArray lE.x0 lE.x1 lE.y0 lE.y1 lE.z0 (lEN.z0 - 1) HIDDENPOINT p)
    else p
  (c, p)

/-! ### Claim-side auxiliary definitions -/

/-- A ghost-cell marking that consists of complete outer layers of thickness
`ghostLevel` on every side of every non-degenerate axis (the marking an input
grid carrying exactly `ghostLevel` ghost layers has).  Cells of the grid
extent `gridExtent` range over
`[x0, max x1 (x0+1)) × [y0, max y1 (y0+1)) × [z0, max z1 (z0+1))`. -/
def layeredMarking (gridExtent : ExtentType) (ghostLevel : Int) :
    Int → Int → Int → Bool :=
  fun i j k =>
    (!(gridExtent.x0 == gridExtent.x1) &&
      (i < gridExtent.x0 + ghostLevel || gridExtent.x1 - 1 - ghostLevel < i)) ||
    (!(gridExtent.y0 == gridExtent.y1) &&
      (j < gridExtent.y0 + ghostLevel || gridExtent.y1 - 1 - ghostLevel < j)) ||
    (!(gridExtent.z0 == gridExtent.z1) &&
      (k < gridExtent.z0 + ghostLevel || gridExtent.z1 - 1 - ghostLevel < k))

/-- The interior extent left after stripping `ghostLevel` layers from every
side of every non-degenerate axis (degenerate axes are returned unchanged). -/
def interiorExtent (e : ExtentType) (ghostLevel : Int) : ExtentType :=
  ⟨if e.x0 = e.x1 then e.x0 else e.x0 + ghostLevel,
    if e.x0 = e.x1 then e.x1 else e.x1 - ghostLevel,
    if e.y0 = e.y1 then e.y0 else e.y0 + ghostLevel,
    if e.y0 = e.y1 then e.y1 else e.y1 - ghostLevel,
    if e.z0 = e.z1 then e.z0 else e.z0 + ghostLevel,
    if e.z0 = e.z1 then e.z1 else e.z1 - ghostLevel⟩

/-- Membership of a cell coordinate in the cell range of an extent, with the
source's convention that a degenerate axis has thickness one. -/
def cellInExtent (e : ExtentType) (i j k : Int) : Prop :=
  e.x0 ≤ i ∧ i < max e.x1 (e.x0 + 1) ∧
  e.y0 ≤ j ∧ j < max e.y1 (e.y0 + 1) ∧
  e.z0 ≤ k ∧ k < max e.z1 (e.z0 + 1)

instance (e : ExtentType) (i j k : Int) : Decidable (cellInExtent e i j k) := by
  unfold cellInExtent
  infer_instance

/-- Helper for the mask-bit lemmas: the adjacency-mask expression of
`ComputeAdjacencyAndOverlapMasks` as a function of its six face conditions
`b` and three non-degeneracy conditions `d`. -/
def adjMaskOf (b : Fin 6 → Bool) (d : Fin 3 → Bool) : Nat :=
  ((if b 0 then Adjacency.Left else 0) |||
    (if b 1 then Adjacency.Right else 0) |||
    (if b 2 then Adjacency.Front else 0) |||
    (if b 3 then Adjacency.Back else 0) |||
    (if b 4 then Adjacency.Bottom else 0) |||
    (if b 5 then Adjacency.Top else 0)) &&&
   ((if d 0 then Adjacency.Left ||| Adjacency.Right else 0) |||
    (if d 1 then Adjacency.Front ||| Adjacency.Back else 0) |||
    (if d 2 then Adjacency.Bottom ||| Adjacency.Top else 0))

/-- Helper for the mask-bit lemmas: the overlap-mask expression of
`ComputeAdjacencyAndOverlapMasks` as a function of its three axis
conditions. -/
def ovMaskOf (o : Fin 3 → Bool) : Nat :=
  (if o 0 then 1 else 0) ||| ((if o 1 then 1 else 0) <<< 1) |||
    ((if o 2 then 1 else 0) <<< 2)

/-! ## Theorems -/

/-- Bit `f` of the adjacency-mask expression is the face condition of `f`
conjoined with the non-degeneracy condition of the axis of `f`. -/
theorem adjMaskOf_testBit :
    ∀ (b : Fin 6 → Bool) (d : Fin 3 → Bool) (f : Fin 6),
      (adjMaskOf b d).testBit f.val = (b f && d (faceAxis f)) := by
  decide

/-- Bit `a` of the overlap-mask expression is the axis condition of `a`. -/
theorem ovMaskOf_testBit :
    ∀ (o : Fin 3 → Bool) (a : Fin 3), (ovMaskOf o).testBit a.val = o a := by
  decide

/-- C1: `ComputeAdjacencyAndOverlapMasks` sets adjacency bit `f` iff
`A[f] = B[opposite f]` and the axis of `f` is non-degenerate in `A`, and sets
overlap bit `a` iff the half-open axis intervals strictly overlap
(`A.lo < B.hi` and `B.lo < A.hi`). -/
theorem computeAdjacencyAndOverlapMasks_spec (A B : ExtentType) :
    (∀ f : Fin 6,
      ((computeAdjacencyAndOverlapMasks A B).1.testBit f.val = true ↔
        (A.get f = B.get (oppositeFace f) ∧ A.lo (faceAxis f) ≠ A.hi (faceAxis f)))) ∧
    (∀ a : Fin 3,
      ((computeAdjacencyAndOverlapMasks A B).2.testBit a.val = true ↔
        (A.lo a < B.hi a ∧ B.lo a < A.hi a))) := by
  have hadj : (computeAdjacencyAndOverlapMasks A B).1 =
      adjMaskOf (fun f => A.get f == B.get (oppositeFace f))
        (fun a => !(A.lo a == A.hi a)) := rfl
  have hov : (computeAdjacencyAndOverlapMasks A B).2 =
      ovMaskOf (fun a => decide (A.lo a < B.hi a) && decide (B.lo a < A.hi a)) := rfl
  constructor
  · intro f
    rw [hadj, adjMaskOf_testBit]
    simp
  · intro a
    rw [hov, ovMaskOf_testBit]
    simp

/-- A fuelled loop whose condition fails returns its cursor unchanged. -/
theorem whileLoop_stop (cond : PeelCursor → Bool) (body : PeelCursor → PeelCursor)
    (fuel : Nat) (c : PeelCursor) (h : cond c = false) :
    whileLoop cond body fuel c = c := by
  cases fuel <;> simp [whileLoop, h]

/-- A fuelled loop whose condition holds executes its body once. -/
theorem whileLoop_step (cond : PeelCursor → Bool) (body : PeelCursor → PeelCursor)
    (fuel : Nat) (c : PeelCursor) (h : cond c = true) :
    whileLoop cond body (fuel + 1) c = whileLoop cond body fuel (body c) := by
  simp [whileLoop, h]

/-- C2 counterexample: on the 1-D grid with extent `[0,2]` whose ghost array
marks cell `(0,0,0)`, `PeelOffGhostLayers` called with `ghostLevel = 0`
returns the full extent `[0,2]`, which contains the marked ghost cell — it is
not the maximal sub-extent containing no marked ghost cells (that would be
`[1,2]`). -/
theorem PeelOffGhostLayers_not_maximal :
    PeelOffGhostLayers ⟨0, 2, 0, 0, 0, 0⟩
        (some (fun i j k => i == 0 && j == 0 && k == 0)) 0 =
      ⟨0, 2, 0, 0, 0, 0⟩ ∧
    (fun i j k => i == 0 && j == 0 && (k == 0 : Bool)) 0 0 0 = true ∧
    cellInExtent ⟨0, 2, 0, 0, 0, 0⟩ 0 0 0 ∧
    IsExtentValid ⟨1, 2, 0, 0, 0, 0⟩ = true ∧
    ¬ cellInExtent ⟨1, 2, 0, 0, 0, 0⟩ 0 0 0 := by
  refine ⟨by decide, by decide, by decide, by decide, by decide⟩

/-- Under a layered marking, one lower-walk body step from a cursor that sits
at or below the top of the lower ghost layer on every axis (and whose locks
are the degeneracy flags) locks every dimension without moving the cursor. -/
theorem peelLowerBody_layered (E : ExtentType) (gl : Int) (i j k : Int)
    (hi : i ≤ E.x0 + gl) (hj : j ≤ E.y0 + gl) (hk : k ≤ E.z0 + gl) :
    peelLowerBody (layeredMarking E gl)
        ⟨i, j, k, E.x0 == E.x1, E.y0 == E.y1, E.z0 == E.z1⟩ =
      ⟨i, j, k, true, true, true⟩ := by
  have hgx : i - 1 < E.x0 + gl := by omega
  have hgy : j - 1 < E.y0 + gl := by omega
  have hgz : k - 1 < E.z0 + gl := by omega
  by_cases h0 : E.x0 = E.x1 <;> by_cases h1 : E.y0 = E.y1 <;>
    by_cases h2 : E.z0 = E.z1 <;>
    simp [peelLowerBody, layeredMarking, h0, h1, h2, hgx, hgy, hgz]

/-- Under a layered marking, one upper-walk body step from a cursor that sits
at or above the bottom of the upper ghost layer on every axis locks every
dimension without moving the cursor. -/
theorem peelUpperBody_layered (E : ExtentType) (gl : Int) (i j k : Int)
    (hi : E.x1 - 1 - gl ≤ i) (hj : E.y1 - 1 - gl ≤ j) (hk : E.z1 - 1 - gl ≤ k) :
    peelUpperBody (layeredMarking E gl)
        ⟨i, j, k, E.x0 == E.x1, E.y0 == E.y1, E.z0 == E.z1⟩ =
      ⟨i, j, k, true, true, true⟩ := by
  have hgx : E.x1 - 1 - gl < i + 1 := by omega
  have hgy : E.y1 - 1 - gl < j + 1 := by omega
  have hgz : E.z1 - 1 - gl < k + 1 := by omega
  by_cases h0 : E.x0 = E.x1 <;> by_cases h1 : E.y0 = E.y1 <;>
    by_cases h2 : E.z0 = E.z1 <;>
    simp [peelUpperBody, layeredMarking, h0, h1, h2, hgx, hgy, hgz]

/-- Under a layered marking, the lower corner walk of `PeelOffGhostLayers`
never moves its cursor: it either stops immediately or locks everything in a
single body step. -/
theorem peelLowerLoop_layered (E : ExtentType) (gl : Int) (fuel : Nat) (i j k : Int)
    (hi : i ≤ E.x0 + gl) (hj : j ≤ E.y0 + gl) (hk : k ≤ E.z0 + gl) :
    ∃ l0 l1 l2 : Bool,
      whileLoop (peelLowerCond (layeredMarking E gl) E.x0 E.y0 E.z0)
          (peelLowerBody (layeredMarking E gl)) fuel
          ⟨i, j, k, E.x0 == E.x1, E.y0 == E.y1, E.z0 == E.z1⟩ =
        ⟨i, j, k, l0, l1, l2⟩ := by
  by_cases hc : peelLowerCond (layeredMarking E gl) E.x0 E.y0 E.z0
      ⟨i, j, k, E.x0 == E.x1, E.y0 == E.y1, E.z0 == E.z1⟩ = true
  · cases fuel with
    | zero => exact ⟨_, _, _, rfl⟩
    | succ n =>
      rw [whileLoop_step _ _ _ _ hc, peelLowerBody_layered E gl i j k hi hj hk,
        whileLoop_stop _ _ _ _ (by simp [peelLowerCond])]
      exact ⟨true, true, true, rfl⟩
  · rw [whileLoop_stop _ _ _ _ (by simpa using hc)]
    exact ⟨_, _, _, rfl⟩

/-- Under a layered marking, the upper corner walk of `PeelOffGhostLayers`
never moves its cursor. -/
theorem peelUpperLoop_layered (E : ExtentType) (gl : Int) (fuel : Nat)
    (imax jmax kmax i j k : Int)
    (hi : E.x1 - 1 - gl ≤ i) (hj : E.y1 - 1 - gl ≤ j) (hk : E.z1 - 1 - gl ≤ k) :
    ∃ l0 l1 l2 : Bool,
      whileLoop (peelUpperCond (layeredMarking E gl) imax jmax kmax)
          (peelUpperBody (layeredMarking E gl)) fuel
          ⟨i, j, k, E.x0 == E.x1, E.y0 == E.y1, E.z0 == E.z1⟩ =
        ⟨i, j, k, l0, l1, l2⟩ := by
  by_cases hc : peelUpperCond (layeredMarking E gl) imax jmax kmax
      ⟨i, j, k, E.x0 == E.x1, E.y0 == E.y1, E.z0 == E.z1⟩ = true
  · cases fuel with
    | zero => exact ⟨_, _, _, rfl⟩
    | succ n =>
      rw [whileLoop_step _ _ _ _ hc, peelUpperBody_layered E gl i j k hi hj hk,
        whileLoop_stop _ _ _ _ (by simp [peelUpperCond])]
      exact ⟨true, true, true, rfl⟩
  · rw [whileLoop_stop _ _ _ _ (by simpa using hc)]
    exact ⟨_, _, _, rfl⟩

/-- C2 (amended): on a grid whose ghost marking consists of complete layers of
thickness `ghostLevel` on every side of every non-degenerate axis, with every
non-degenerate axis of width at least `2·ghostLevel + 1`, `PeelOffGhostLayers`
returns the interior extent, which contains no marked ghost cell and contains
every valid sub-extent of the grid extent whose cells are all unmarked — i.e.
it is the maximal ghost-free sub-extent, expressed in the input's own frame,
with degenerate axes returned unchanged. -/
theorem PeelOffGhostLayers_layered (E : ExtentType) (gl : Int) (hgl : 0 ≤ gl)
    (hx : E.x0 = E.x1 ∨ E.x0 + 2 * gl + 1 ≤ E.x1)
    (hy : E.y0 = E.y1 ∨ E.y0 + 2 * gl + 1 ≤ E.y1)
    (hz : E.z0 = E.z1 ∨ E.z0 + 2 * gl + 1 ≤ E.z1) :
    PeelOffGhostLayers E (some (layeredMarking E gl)) gl = interiorExtent E gl ∧
    (∀ i j k, cellInExtent (interiorExtent E gl) i j k →
      layeredMarking E gl i j k = false) ∧
    (∀ F : ExtentType, IsExtentValid F = true →
      E.x0 ≤ F.x0 → F.x1 ≤ E.x1 → E.y0 ≤ F.y0 → F.y1 ≤ E.y1 →
      E.z0 ≤ F.z0 → F.z1 ≤ E.z1 →
      (∀ i j k, cellInExtent F i j k → layeredMarking E gl i j k = false) →
      (interiorExtent E gl).x0 ≤ F.x0 ∧ F.x1 ≤ (interiorExtent E gl).x1 ∧
        (interiorExtent E gl).y0 ≤ F.y0 ∧ F.y1 ≤ (interiorExtent E gl).y1 ∧
        (interiorExtent E gl).z0 ≤ F.z0 ∧ F.z1 ≤ (interiorExtent E gl).z1) := by
  refine ⟨?_, ?_, ?_⟩
  · obtain ⟨lx0, lx1, lx2, hlow⟩ := peelLowerLoop_layered E gl (peelFuel E)
      (min (E.x0 + gl) (max E.x1 (E.x0 + 1) - 1))
      (min (E.y0 + gl) (max E.y1 (E.y0 + 1) - 1))
      (min (E.z0 + gl) (max E.z1 (E.z0 + 1) - 1))
      (by omega) (by omega) (by omega)
    obtain ⟨ux0, ux1, ux2, hup⟩ := peelUpperLoop_layered E gl (peelFuel E)
      (max E.x1 (E.x0 + 1)) (max E.y1 (E.y0 + 1)) (max E.z1 (E.z0 + 1))
      (max (max E.x1 (E.x0 + 1) - 1 - gl) E.x0)
      (max (max E.y1 (E.y0 + 1) - 1 - gl) E.y0)
      (max (max E.z1 (E.z0 + 1) - 1 - gl) E.z0)
      (by omega) (by omega) (by omega)
    simp only [PeelOffGhostLayers]
    rw [hlow, hup]
    clear hlow hup
    simp only [interiorExtent, ExtentType.mk.injEq, bne_iff_ne, ne_eq]
    refine ⟨?_, ?_, ?_, ?_, ?_, ?_⟩ <;> split_ifs <;> omega
  · intro i j k h
    simp only [cellInExtent, interiorExtent] at h
    simp only [layeredMarking, Bool.or_eq_false_iff, Bool.and_eq_false_iff,
      Bool.not_eq_false', beq_iff_eq, decide_eq_false_iff_not, decide_eq_true_eq,
      not_or, not_lt]
    split_ifs at h <;> omega
  · intro F hF h1 h2 h3 h4 h5 h6 hunmark
    simp only [IsExtentValid, Bool.and_eq_true, decide_eq_true_eq] at hF
    have hlow := hunmark F.x0 F.y0 F.z0 (by simp only [cellInExtent]; omega)
    have hupx := hunmark (max F.x1 (F.x0 + 1) - 1) F.y0 F.z0
      (by simp only [cellInExtent]; omega)
    have hupy := hunmark F.x0 (max F.y1 (F.y0 + 1) - 1) F.z0
      (by simp only [cellInExtent]; omega)
    have hupz := hunmark F.x0 F.y0 (max F.z1 (F.z0 + 1) - 1)
      (by simp only [cellInExtent]; omega)
    simp only [layeredMarking, Bool.or_eq_false_iff, Bool.and_eq_false_iff,
      Bool.not_eq_false', beq_iff_eq, decide_eq_false_iff_not, decide_eq_true_eq,
      not_or, not_lt] at hlow hupx hupy hupz
    simp only [interiorExtent]
    refine ⟨?_, ?_, ?_, ?_, ?_, ?_⟩ <;> split_ifs <;> omega

/-- Witness for C2 (amended) at the concrete 2-D grid `[0,4,0,4,0,0]` with one
ghost layer: the peel returns `[1,3,1,3,0,0]`. -/
theorem PeelOffGhostLayers_layered_witness :
    PeelOffGhostLayers ⟨0, 4, 0, 4, 0, 0⟩
        (some (layeredMarking ⟨0, 4, 0, 4, 0, 0⟩ 1)) 1 = ⟨1, 3, 1, 3, 0, 0⟩ :=
  ((PeelOffGhostLayers_layered ⟨0, 4, 0, 4, 0, 0⟩ 1 (by decide) (by decide)
      (by decide) (by decide)).1).trans (by decide)

/-- C10: when the grid carries no cell ghost marker array,
`PeelOffGhostLayers` returns the grid's own extent unchanged, for every value
of the `ghostLevel` argument. -/
theorem PeelOffGhostLayers_noGhostArray (E : ExtentType) (ghostLevel : Int) :
    PeelOffGhostLayers E none ghostLevel = E := rfl

/-- C3 (amended): the uniform-grid matcher returns no match exactly when the
remote extent is invalid (`min > max` on some axis), the data dimensions
differ, the spacing dot-product test fails, or the quaternion inner product
differs from 1 by the epsilon or more; on a match it returns the remote extent
translated by the negated per-axis rounded shift
`round((remoteOrigin − localOrigin) / spacing)`. -/
theorem SynchronizeGridExtentsImage_spec (ops : FloatOps)
    (lb b : ImageDataBlockStructure) :
    (SynchronizeGridExtentsImage ops lb b = none ↔
      (b.Extent.x1 < b.Extent.x0 ∨ b.Extent.y1 < b.Extent.y0 ∨
        b.Extent.z1 < b.Extent.z0 ∨ b.DataDimension ≠ lb.DataDimension ∨
        ops.nearlyEqual (dot3 b.Spacing lb.Spacing) (squaredNorm3 lb.Spacing) = false ∨
        ops.dblEpsilon ≤ |dot4 b.OrientationQuaternion lb.OrientationQuaternion - 1|)) ∧
    (∀ e, SynchronizeGridExtentsImage ops lb b = some e →
      e = ⟨b.Extent.x0 - ops.lround ((b.Origin.v0 - lb.Origin.v0) / b.Spacing.v0),
        b.Extent.x1 - ops.lround ((b.Origin.v0 - lb.Origin.v0) / b.Spacing.v0),
        b.Extent.y0 - ops.lround ((b.Origin.v1 - lb.Origin.v1) / b.Spacing.v1),
        b.Extent.y1 - ops.lround ((b.Origin.v1 - lb.Origin.v1) / b.Spacing.v1),
        b.Extent.z0 - ops.lround ((b.Origin.v2 - lb.Origin.v2) / b.Spacing.v2),
        b.Extent.z1 - ops.lround ((b.Origin.v2 - lb.Origin.v2) / b.Spacing.v2)⟩) := by
  simp only [SynchronizeGridExtentsImage]
  split_ifs with h <;>
    simp only [Bool.or_eq_true, Bool.not_eq_true', decide_eq_true_eq,
      decide_eq_false_iff_not, bne_iff_ne, ne_eq, not_lt, gt_iff_lt,
      Bool.not_eq_true] at h
  · exact ⟨⟨fun _ => by tauto, fun _ => rfl⟩, fun e hf => hf.elim⟩
  · refine ⟨?_, fun e he => (Option.some_inj.mp he).symm⟩
    simp only [false_iff]
    intro hc
    exact h (by tauto)

/-- C3 counterexample: two uniform blocks with equal dimensions, spacings and
orientation quaternions, so that every rejection condition listed by the claim
is absent, are nevertheless not matched because the remote extent is invalid
(`min > max` on the x axis). -/
theorem SynchronizeGridExtentsImage_invalid_extent :
    SynchronizeGridExtentsImage ⟨fun a b => a == b, 1, fun _ => 0⟩
        ⟨⟨0, 1, 0, 1, 0, 1⟩, 3, ⟨0, 0, 0⟩, ⟨1, 1, 1⟩, ⟨1, 0, 0, 0⟩⟩
        ⟨⟨1, 0, 0, 1, 0, 1⟩, 3, ⟨0, 0, 0⟩, ⟨1, 1, 1⟩, ⟨1, 0, 0, 0⟩⟩ = none ∧
    (3 : Int) = 3 ∧
    (fun a b : ℚ => a == b) (dot3 ⟨1, 1, 1⟩ ⟨1, 1, 1⟩) (squaredNorm3 ⟨1, 1, 1⟩) = true ∧
    |dot4 ⟨1, 0, 0, 0⟩ ⟨1, 0, 0, 0⟩ - 1| < (1 : ℚ) := by
  refine ⟨rfl, rfl, ?_, by norm_num [dot4]⟩
  simp only [dot3, squaredNorm3, beq_iff_eq]

/-- Witness for C3 (amended): two identical valid blocks match and the
translated extent is the remote extent shifted by the rounded origin
difference (zero here). -/
theorem SynchronizeGridExtentsImage_spec_witness :
    SynchronizeGridExtentsImage ⟨fun a b => a == b, 1, fun q => ⌊q⌋⟩
        ⟨⟨0, 1, 0, 1, 0, 1⟩, 3, ⟨0, 0, 0⟩, ⟨1, 1, 1⟩, ⟨1, 0, 0, 0⟩⟩
        ⟨⟨0, 1, 0, 1, 0, 1⟩, 3, ⟨0, 0, 0⟩, ⟨1, 1, 1⟩, ⟨1, 0, 0, 0⟩⟩ =
      some ⟨0, 1, 0, 1, 0, 1⟩ ∧
    (⟨0, 1, 0, 1, 0, 1⟩ : ExtentType) =
      ⟨0 - ⌊((0 : ℚ) - 0) / 1⌋, 1 - ⌊((0 : ℚ) - 0) / 1⌋, 0 - ⌊((0 : ℚ) - 0) / 1⌋,
        1 - ⌊((0 : ℚ) - 0) / 1⌋, 0 - ⌊((0 : ℚ) - 0) / 1⌋, 1 - ⌊((0 : ℚ) - 0) / 1⌋⟩ := by
  have hsync : SynchronizeGridExtentsImage ⟨fun a b => a == b, 1, fun q => ⌊q⌋⟩
      ⟨⟨0, 1, 0, 1, 0, 1⟩, 3, ⟨0, 0, 0⟩, ⟨1, 1, 1⟩, ⟨1, 0, 0, 0⟩⟩
      ⟨⟨0, 1, 0, 1, 0, 1⟩, 3, ⟨0, 0, 0⟩, ⟨1, 1, 1⟩, ⟨1, 0, 0, 0⟩⟩ =
      some ⟨0, 1, 0, 1, 0, 1⟩ := by
    simp only [SynchronizeGridExtentsImage, dot3, dot4, squaredNorm3, beq_iff_eq]
    norm_num
  refine ⟨hsync, ?_⟩
  have := (SynchronizeGridExtentsImage_spec ⟨fun a b => a == b, 1, fun q => ⌊q⌋⟩
      ⟨⟨0, 1, 0, 1, 0, 1⟩, 3, ⟨0, 0, 0⟩, ⟨1, 1, 1⟩, ⟨1, 0, 0, 0⟩⟩
      ⟨⟨0, 1, 0, 1, 0, 1⟩, 3, ⟨0, 0, 0⟩, ⟨1, 1, 1⟩, ⟨1, 0, 0, 0⟩⟩).2
      ⟨0, 1, 0, 1, 0, 1⟩ hsync
  simp only at this
  exact this

/-- C4 (amended): the rectilinear-grid matcher declares two blocks matched iff
the data dimensions agree, the remote extent is valid, and either all three
axis fitters report an overlapping run or all three report a degenerate
overlap (`MinId = MaxId`); on a match the remote extent is translated so that
the shift applied on axis `a` equals
`localExtent[2a] + localMinId − remoteExtent[2a] − remoteMinId` (with
`remoteMinId = MinId`, the overlap start in the remote coordinate array, and
`localMinId = LocalMinId`, the overlap start in the local one). -/
theorem SynchronizeGridExtentsRect_spec (lb b : RectilinearGridBlockStructure) :
    (SynchronizeGridExtentsRect lb b = none ↔
      (lb.DataDimension ≠ b.DataDimension ∨ b.Extent.x1 < b.Extent.x0 ∨
        b.Extent.y1 < b.Extent.y0 ∨ b.Extent.z1 < b.Extent.z0 ∨
        (((FitWorkerRun lb.XCoordinates b.XCoordinates).Overlaps = false ∨
            (FitWorkerRun lb.YCoordinates b.YCoordinates).Overlaps = false ∨
            (FitWorkerRun lb.ZCoordinates b.ZCoordinates).Overlaps = false) ∧
          ((FitWorkerRun lb.XCoordinates b.XCoordinates).MinId ≠
              (FitWorkerRun lb.XCoordinates b.XCoordinates).MaxId ∨
            (FitWorkerRun lb.YCoordinates b.YCoordinates).MinId ≠
              (FitWorkerRun lb.YCoordinates b.YCoordinates).MaxId ∨
            (FitWorkerRun lb.ZCoordinates b.ZCoordinates).MinId ≠
              (FitWorkerRun lb.ZCoordinates b.ZCoordinates).MaxId)))) ∧
    (∀ e, SynchronizeGridExtentsRect lb b = some e →
      e.x0 = b.Extent.x0 + (lb.Extent.x0 +
          (FitWorkerRun lb.XCoordinates b.XCoordinates).LocalMinId -
          b.Extent.x0 - (FitWorkerRun lb.XCoordinates b.XCoordinates).MinId) ∧
      e.x1 = b.Extent.x1 + (lb.Extent.x0 +
          (FitWorkerRun lb.XCoordinates b.XCoordinates).LocalMinId -
          b.Extent.x0 - (FitWorkerRun lb.XCoordinates b.XCoordinates).MinId) ∧
      e.y0 = b.Extent.y0 + (lb.Extent.y0 +
          (FitWorkerRun lb.YCoordinates b.YCoordinates).LocalMinId -
          b.Extent.y0 - (FitWorkerRun lb.YCoordinates b.YCoordinates).MinId) ∧
      e.y1 = b.Extent.y1 + (lb.Extent.y0 +
          (FitWorkerRun lb.YCoordinates b.YCoordinates).LocalMinId -
          b.Extent.y0 - (FitWorkerRun lb.YCoordinates b.YCoordinates).MinId) ∧
      e.z0 = b.Extent.z0 + (lb.Extent.z0 +
          (FitWorkerRun lb.ZCoordinates b.ZCoordinates).LocalMinId -
          b.Extent.z0 - (FitWorkerRun lb.ZCoordinates b.ZCoordinates).MinId) ∧
      e.z1 = b.Extent.z1 + (lb.Extent.z0 +
          (FitWorkerRun lb.ZCoordinates b.ZCoordinates).LocalMinId -
          b.Extent.z0 - (FitWorkerRun lb.ZCoordinates b.ZCoordinates).MinId)) := by
  simp only [SynchronizeGridExtentsRect]
  split_ifs with h1 h2 <;>
    simp only [Bool.or_eq_true, Bool.and_eq_true, Bool.not_eq_true',
      decide_eq_true_eq, bne_iff_ne, ne_eq, gt_iff_lt] at h1
  · exact ⟨⟨fun _ => by tauto, fun _ => rfl⟩, fun e hf => hf.elim⟩
  · simp only [Bool.or_eq_true, Bool.and_eq_true, Bool.not_eq_true',
      bne_iff_ne, ne_eq, decide_eq_true_eq] at h2
    exact ⟨⟨fun _ => by tauto, fun _ => rfl⟩, fun e hf => hf.elim⟩
  · simp only [Bool.or_eq_true, Bool.and_eq_true, Bool.not_eq_true',
      bne_iff_ne, ne_eq, decide_eq_true_eq] at h2
    push_neg at h1
    obtain ⟨⟨⟨hdim, hvx⟩, hvy⟩, hvz⟩ := h1
    refine ⟨?_, ?_⟩
    · simp only [false_iff, not_or]
      exact ⟨fun hc => hc hdim, by omega, by omega, by omega, by tauto⟩
    · intro e he
      obtain rfl := Option.some_inj.mp he
      refine ⟨?_, ?_, ?_, ?_, ?_, ?_⟩ <;> dsimp only <;> ring

/-- C4 counterexample: a concrete matched pair of rectilinear blocks whose
actual translation differs from the one the claim's shift formula
`localExtent[2a] + remoteMinId − remoteExtent[2a] − localMinId` predicts.
Local block: x extent `[0,2]` with coordinates `[0,1,2]`; remote block:
x extent `[10,12]` with coordinates `[2,3,4]` (y and z degenerate and
identical).  The matcher shifts the remote x extent to `[2,4]`, while the
claim's formula predicts a shift of `0 + 0 − 10 − 2 = −12`, i.e. `[-2,0]`. -/
theorem SynchronizeGridExtentsRect_shift_formula :
    SynchronizeGridExtentsRect ⟨⟨0, 2, 0, 0, 0, 0⟩, 1, [0, 1, 2], [0], [0]⟩
        ⟨⟨10, 12, 0, 0, 0, 0⟩, 1, [2, 3, 4], [0], [0]⟩ =
      some ⟨2, 4, 0, 0, 0, 0⟩ ∧
    (FitWorkerRun [0, 1, 2] [2, 3, 4]).MinId = 0 ∧
    (FitWorkerRun [0, 1, 2] [2, 3, 4]).LocalMinId = 2 ∧
    (0 : Int) + (FitWorkerRun [0, 1, 2] [2, 3, 4]).MinId - 10 -
        (FitWorkerRun [0, 1, 2] [2, 3, 4]).LocalMinId = -12 ∧
    (2 : Int) ≠ 10 + -12 := by
  refine ⟨rfl, rfl, rfl, rfl, by decide⟩

/-- Witness for C4 (amended) at the same concrete matched pair: the translated
extent satisfies the amended shift formula. -/
theorem SynchronizeGridExtentsRect_spec_witness :
    ((⟨2, 4, 0, 0, 0, 0⟩ : ExtentType).x0 = 10 + ((0 : Int) +
        (FitWorkerRun [0, 1, 2] [2, 3, 4]).LocalMinId - 10 -
        (FitWorkerRun [0, 1, 2] [2, 3, 4]).MinId)) ∧
    ((⟨2, 4, 0, 0, 0, 0⟩ : ExtentType).x1 = 12 + ((0 : Int) +
        (FitWorkerRun [0, 1, 2] [2, 3, 4]).LocalMinId - 10 -
        (FitWorkerRun [0, 1, 2] [2, 3, 4]).MinId)) := by
  have h := (SynchronizeGridExtentsRect_spec
      ⟨⟨0, 2, 0, 0, 0, 0⟩, 1, [0, 1, 2], [0], [0]⟩
      ⟨⟨10, 12, 0, 0, 0, 0⟩, 1, [2, 3, 4], [0], [0]⟩).2
      ⟨2, 4, 0, 0, 0, 0⟩ rfl
  exact ⟨h.1, h.2.1⟩

/-- Reading a component just written by `ExtentType.set`. -/
theorem ExtentType.get_set (e : ExtentType) (i j : Fin 6) (v : Int) :
    (e.set i v).get j = if i = j then v else e.get j := by
  fin_cases i <;> fin_cases j <;> simp [ExtentType.set, ExtentType.get]

/-- Every component of `zeroExtent` is zero. -/
theorem zeroExtent_get (i : Fin 6) : zeroExtent.get i = 0 := by
  fin_cases i <;> rfl

/-- The depth contributed by one `AddGhostLayerToGrid` call: the output ghost
level clamped to the neighbor's width along the axis of `idx` (the
`localOutputGhostLevels` of the source, the `depth` of the specification). -/
def ghostDepth (outputGhostLevels : Int) (idx : Fin 6)
    (bs : ImageBlockStructureState) : Int :=
  min outputGhostLevels
    |bs.Structure.Extent.get idx - bs.Structure.Extent.get (oppositeFace idx)|

/-- `AddGhostLayerToGrid` updates the thickness accumulator by
`t[idx] := max (t[idx]) depth` and leaves the information extent alone. -/
theorem AddGhostLayerToGrid_snd (idx : Fin 6) (g : Int)
    (bs : ImageBlockStructureState) (info : GridBlockInformation) :
    (AddGhostLayerToGrid idx g bs info).2 =
      { info with
          ExtentGhostThickness := info.ExtentGhostThickness.set idx
            (max (info.ExtentGhostThickness.get idx) (ghostDepth g idx bs)) } := rfl

/-- The base of a left max-fold never exceeds its result. -/
theorem le_foldl_max_self (l : List Int) (a : Int) : a ≤ l.foldl max a := by
  induction l generalizing a with
  | nil => exact le_refl a
  | cons b l ih => exact le_trans (le_max_left a b) (ih (max a b))

/-- Every member of a list bounds from below the left max-fold over it. -/
theorem le_foldl_max_of_mem (l : List Int) (a b : Int) (h : b ∈ l) :
    b ≤ l.foldl max a := by
  induction l generalizing a with
  | nil => cases h
  | cons c l ih =>
    rw [List.foldl_cons]
    rcases List.mem_cons.mp h with rfl | h
    · exact le_trans (le_max_right a b) (le_foldl_max_self l (max a b))
    · exact ih (max a c) h

/-- A left max-fold is bounded by any common upper bound of the base and the
list members. -/
theorem foldl_max_le (l : List Int) (a c : Int) (ha : a ≤ c)
    (h : ∀ b ∈ l, b ≤ c) : l.foldl max a ≤ c := by
  induction l generalizing a with
  | nil => exact ha
  | cons b l ih =>
    exact ih (max a b) (max_le ha (h b (List.mem_cons_self b l)))
      (fun x hx => h x (List.mem_cons_of_mem b hx))

/-- A left max-fold equals its base or one of the list members. -/
theorem foldl_max_cases (l : List Int) (a : Int) :
    l.foldl max a = a ∨ l.foldl max a ∈ l := by
  induction l generalizing a with
  | nil => exact Or.inl rfl
  | cons b l ih =>
    rcases ih (max a b) with h | h
    · rcases max_cases a b with ⟨hm, _⟩ | ⟨hm, _⟩
      · exact Or.inl (by rw [List.foldl_cons, h, hm])
      · exact Or.inr (by rw [List.foldl_cons, h, hm]; exact List.mem_cons_self b l)
    · exact Or.inr (List.mem_cons_of_mem b h)

/-- The thickness accumulator after a sequence of `AddGhostLayerToGrid` calls:
component `idx` is the max-fold of the depths of the calls issued at `idx`,
over the initial value. -/
theorem applyGhostLayerEvents_get (g : Int)
    (events : List (Fin 6 × ImageBlockStructureState))
    (info : GridBlockInformation) (idx : Fin 6) :
    (applyGhostLayerEvents g events info).ExtentGhostThickness.get idx =
      ((events.filter (fun ev => ev.1 == idx)).map
        (fun ev => ghostDepth g idx ev.2)).foldl max
          (info.ExtentGhostThickness.get idx) := by
  induction events generalizing info with
  | nil => rfl
  | cons ev rest ih =>
    rw [applyGhostLayerEvents, List.foldl_cons, ← applyGhostLayerEvents, ih,
      AddGhostLayerToGrid_snd]
    by_cases h : ev.1 = idx
    · subst h
      simp [List.filter_cons, ExtentType.get_set]
    · simp [List.filter_cons, h, ExtentType.get_set, Ne.symm h]

/-- `AddGhostLayerToGrid` never changes the information extent. -/
theorem applyGhostLayerEvents_extent (g : Int)
    (events : List (Fin 6 × ImageBlockStructureState))
    (info : GridBlockInformation) :
    (applyGhostLayerEvents g events info).Extent = info.Extent := by
  induction events generalizing info with
  | nil => rfl
  | cons ev rest ih =>
    rw [applyGhostLayerEvents, List.foldl_cons, ← applyGhostLayerEvents, ih,
      AddGhostLayerToGrid_snd]

/-- C5 (amended): starting from the zero accumulator, after a sequence of
`AddGhostLayerToGrid` calls the per-side ghost thickness `t[idx]` equals the
maximum over the calls issued at `idx` of
`min(outputGhostLevels, neighbor width along that axis)`; consequently
`t[idx]` never exceeds the LARGEST contributing neighbor depth — it equals the
depth of some contributing neighbor (or 0 when there is none) and bounds every
contributing depth from above — and each contribution with
`outputGhostLevels` at least the neighbor's width clamps to that width. -/
theorem AddGhostLayerToGrid_thickness_spec (g : Int) (E0 : ExtentType)
    (events : List (Fin 6 × ImageBlockStructureState)) (idx : Fin 6) :
    ((applyGhostLayerEvents g events ⟨E0, zeroExtent⟩).ExtentGhostThickness.get idx =
      ((events.filter (fun ev => ev.1 == idx)).map
        (fun ev => ghostDepth g idx ev.2)).foldl max 0) ∧
    (∀ ev ∈ events.filter (fun ev => ev.1 == idx),
      ghostDepth g idx ev.2 ≤
        (applyGhostLayerEvents g events ⟨E0, zeroExtent⟩).ExtentGhostThickness.get idx) ∧
    ((applyGhostLayerEvents g events ⟨E0, zeroExtent⟩).ExtentGhostThickness.get idx = 0 ∨
      ∃ ev ∈ events.filter (fun ev => ev.1 == idx),
        (applyGhostLayerEvents g events ⟨E0, zeroExtent⟩).ExtentGhostThickness.get idx =
          ghostDepth g idx ev.2) ∧
    (∀ bs : ImageBlockStructureState,
      |bs.Structure.Extent.get idx - bs.Structure.Extent.get (oppositeFace idx)| ≤ g →
      ghostDepth g idx bs =
        |bs.Structure.Extent.get idx - bs.Structure.Extent.get (oppositeFace idx)|) := by
  have hbase : (⟨E0, zeroExtent⟩ : GridBlockInformation).ExtentGhostThickness.get idx = 0 :=
    zeroExtent_get idx
  have hchar := applyGhostLayerEvents_get g events ⟨E0, zeroExtent⟩ idx
  rw [hbase] at hchar
  refine ⟨hchar, ?_, ?_, ?_⟩
  · intro ev hev
    rw [hchar]
    exact le_foldl_max_of_mem _ 0 _ (List.mem_map_of_mem _ hev)
  · rw [hchar]
    rcases foldl_max_cases ((events.filter (fun ev => ev.1 == idx)).map
        (fun ev => ghostDepth g idx ev.2)) 0 with h | h
    · exact Or.inl h
    · obtain ⟨ev, hev, hd⟩ := List.mem_map.mp h
      exact Or.inr ⟨ev, hev, hd.symm⟩
  · intro bs hle
    exact min_eq_right hle

/-- C5 counterexample: two neighbors both adjacent on side `idx = 1` (the
right face), one of width 3 and one of width 1, with `outputGhostLevels = 3`:
the accumulated thickness is 3, which exceeds the second contributing
neighbor's depth `min(3, 1) = 1` — the per-side thickness can exceed the
depth of a contributing neighbor. -/
theorem AddGhostLayerToGrid_thickness_exceeds :
    (applyGhostLayerEvents 3
          [(1, ⟨⟨⟨2, 5, 0, 4, 0, 0⟩, 2, ⟨0, 0, 0⟩, ⟨1, 1, 1⟩, ⟨1, 0, 0, 0⟩⟩,
              ⟨2, 5, 0, 4, 0, 0⟩, 0⟩),
            (1, ⟨⟨⟨2, 3, 0, 4, 0, 0⟩, 2, ⟨0, 0, 0⟩, ⟨1, 1, 1⟩, ⟨1, 0, 0, 0⟩⟩,
              ⟨2, 3, 0, 4, 0, 0⟩, 0⟩)]
          ⟨⟨0, 2, 0, 4, 0, 0⟩, zeroExtent⟩).ExtentGhostThickness.get 1 = 3 ∧
    ghostDepth 3 1 ⟨⟨⟨2, 3, 0, 4, 0, 0⟩, 2, ⟨0, 0, 0⟩, ⟨1, 1, 1⟩, ⟨1, 0, 0, 0⟩⟩,
        ⟨2, 3, 0, 4, 0, 0⟩, 0⟩ = 1 ∧
    ¬((3 : Int) ≤ 1) := by
  refine ⟨rfl, rfl, by decide⟩

/-- Witness for C5 (amended) at one concrete contribution of depth 3 on side
1: the contribution bounds the accumulated thickness from below. -/
theorem AddGhostLayerToGrid_thickness_spec_witness :
    ghostDepth 3 1 ⟨⟨⟨2, 5, 0, 4, 0, 0⟩, 2, ⟨0, 0, 0⟩, ⟨1, 1, 1⟩, ⟨1, 0, 0, 0⟩⟩,
        ⟨2, 5, 0, 4, 0, 0⟩, 0⟩ ≤
      (applyGhostLayerEvents 3
          [(1, ⟨⟨⟨2, 5, 0, 4, 0, 0⟩, 2, ⟨0, 0, 0⟩, ⟨1, 1, 1⟩, ⟨1, 0, 0, 0⟩⟩,
              ⟨2, 5, 0, 4, 0, 0⟩, 0⟩)]
          ⟨⟨0, 2, 0, 4, 0, 0⟩, zeroExtent⟩).ExtentGhostThickness.get 1 :=
  (AddGhostLayerToGrid_thickness_spec 3 ⟨0, 2, 0, 4, 0, 0⟩
      [(1, ⟨⟨⟨2, 5, 0, 4, 0, 0⟩, 2, ⟨0, 0, 0⟩, ⟨1, 1, 1⟩, ⟨1, 0, 0, 0⟩⟩,
          ⟨2, 5, 0, 4, 0, 0⟩, 0⟩)] 1).2.1
    (1, ⟨⟨⟨2, 5, 0, 4, 0, 0⟩, 2, ⟨0, 0, 0⟩, ⟨1, 1, 1⟩, ⟨1, 0, 0, 0⟩⟩,
        ⟨2, 5, 0, 4, 0, 0⟩, 0⟩)
    (by simp)

/-- C6: after all neighbors are processed starting from the zero accumulator,
the output extent equals the peeled extent widened by the accumulated
thickness per side (`outputExtent[2a] = extent[2a] − t[2a]`,
`outputExtent[2a+1] = extent[2a+1] + t[2a+1]`), and on each axis the output
width exceeds the peeled width by `t[2a] + t[2a+1] ≤ 2·outputGhostLevels`. -/
theorem UpdateOutputGridStructure_spec (g : Int) (hg : 0 ≤ g) (E0 : ExtentType)
    (hvalid : IsExtentValid E0 = true)
    (events : List (Fin 6 × ImageBlockStructureState)) :
    UpdateOutputGridStructure (applyGhostLayerEvents g events ⟨E0, zeroExtent⟩) =
      ⟨E0.x0 - (applyGhostLayerEvents g events ⟨E0, zeroExtent⟩).ExtentGhostThickness.x0,
        E0.x1 + (applyGhostLayerEvents g events ⟨E0, zeroExtent⟩).ExtentGhostThickness.x1,
        E0.y0 - (applyGhostLayerEvents g events ⟨E0, zeroExtent⟩).ExtentGhostThickness.y0,
        E0.y1 + (applyGhostLayerEvents g events ⟨E0, zeroExtent⟩).ExtentGhostThickness.y1,
        E0.z0 - (applyGhostLayerEvents g events ⟨E0, zeroExtent⟩).ExtentGhostThickness.z0,
        E0.z1 + (applyGhostLayerEvents g events ⟨E0, zeroExtent⟩).ExtentGhostThickness.z1⟩ ∧
    (∀ a : Fin 3,
      |(UpdateOutputGridStructure (applyGhostLayerEvents g events ⟨E0, zeroExtent⟩)).hi a -
          (UpdateOutputGridStructure (applyGhostLayerEvents g events ⟨E0, zeroExtent⟩)).lo a| -
        |E0.hi a - E0.lo a| =
        (applyGhostLayerEvents g events ⟨E0, zeroExtent⟩).ExtentGhostThickness.lo a +
          (applyGhostLayerEvents g events ⟨E0, zeroExtent⟩).ExtentGhostThickness.hi a ∧
      (applyGhostLayerEvents g events ⟨E0, zeroExtent⟩).ExtentGhostThickness.lo a +
          (applyGhostLayerEvents g events ⟨E0, zeroExtent⟩).ExtentGhostThickness.hi a ≤
        2 * g) := by
  have hext : (applyGhostLayerEvents g events ⟨E0, zeroExtent⟩).Extent = E0 :=
    applyGhostLayerEvents_extent g events ⟨E0, zeroExtent⟩
  have hpos : ∀ idx : Fin 6,
      0 ≤ (applyGhostLayerEvents g events ⟨E0, zeroExtent⟩).ExtentGhostThickness.get idx := by
    intro idx
    rw [applyGhostLayerEvents_get]
    dsimp only
    rw [zeroExtent_get]
    exact le_foldl_max_self _ 0
  have hleg : ∀ idx : Fin 6,
      (applyGhostLayerEvents g events ⟨E0, zeroExtent⟩).ExtentGhostThickness.get idx ≤ g := by
    intro idx
    rw [applyGhostLayerEvents_get]
    dsimp only
    rw [zeroExtent_get]
    refine foldl_max_le _ 0 g hg ?_
    intro b hb
    obtain ⟨ev, _, rfl⟩ := List.mem_map.mp hb
    exact min_le_left _ _
  have hvx : E0.x0 ≤ E0.x1 ∧ E0.y0 ≤ E0.y1 ∧ E0.z0 ≤ E0.z1 := by
    simpa [IsExtentValid, Bool.and_eq_true, decide_eq_true_eq, and_assoc] using hvalid
  constructor
  · rw [UpdateOutputGridStructure, hext]
  · intro a
    have h0 := hpos (2 * a.castSucc)
    have hhi0 := hpos ((2 * a.castSucc) + 1)
    fin_cases a <;>
      simp only [UpdateOutputGridStructure, hext, ExtentType.lo, ExtentType.hi] <;>
      constructor
    · have h1 := hpos 0
      have h2 := hpos 1
      rw [abs_of_nonneg (by simp only [ExtentType.get] at h1 h2; omega),
        abs_of_nonneg (by omega)]
      omega
    · have h1 := hleg 0
      have h2 := hleg 1
      have h3 := hpos 0
      have h4 := hpos 1
      simp only [ExtentType.get] at h1 h2 h3 h4
      omega
    · have h1 := hpos 2
      have h2 := hpos 3
      rw [abs_of_nonneg (by simp only [ExtentType.get] at h1 h2; omega),
        abs_of_nonneg (by omega)]
      omega
    · have h1 := hleg 2
      have h2 := hleg 3
      have h3 := hpos 2
      have h4 := hpos 3
      simp only [ExtentType.get] at h1 h2 h3 h4
      omega
    · have h1 := hpos 4
      have h2 := hpos 5
      rw [abs_of_nonneg (by simp only [ExtentType.get] at h1 h2; omega),
        abs_of_nonneg (by omega)]
      omega
    · have h1 := hleg 4
      have h2 := hleg 5
      have h3 := hpos 4
      have h4 := hpos 5
      simp only [ExtentType.get] at h1 h2 h3 h4
      omega

/-- Witness for C6 at a concrete block with one right-face neighbor and
`outputGhostLevels = 3`. -/
theorem UpdateOutputGridStructure_spec_witness :
    (0 : Int) ≤ 3 ∧ IsExtentValid ⟨0, 2, 0, 4, 0, 0⟩ = true ∧
    UpdateOutputGridStructure (applyGhostLayerEvents 3
        [(1, ⟨⟨⟨2, 5, 0, 4, 0, 0⟩, 2, ⟨0, 0, 0⟩, ⟨1, 1, 1⟩, ⟨1, 0, 0, 0⟩⟩,
            ⟨2, 5, 0, 4, 0, 0⟩, 0⟩)] ⟨⟨0, 2, 0, 4, 0, 0⟩, zeroExtent⟩) =
      ⟨(0 : Int) - (applyGhostLayerEvents 3
          [(1, ⟨⟨⟨2, 5, 0, 4, 0, 0⟩, 2, ⟨0, 0, 0⟩, ⟨1, 1, 1⟩, ⟨1, 0, 0, 0⟩⟩,
              ⟨2, 5, 0, 4, 0, 0⟩, 0⟩)] ⟨⟨0, 2, 0, 4, 0, 0⟩, zeroExtent⟩).ExtentGhostThickness.x0,
        (2 : Int) + (applyGhostLayerEvents 3
          [(1, ⟨⟨⟨2, 5, 0, 4, 0, 0⟩, 2, ⟨0, 0, 0⟩, ⟨1, 1, 1⟩, ⟨1, 0, 0, 0⟩⟩,
              ⟨2, 5, 0, 4, 0, 0⟩, 0⟩)] ⟨⟨0, 2, 0, 4, 0, 0⟩, zeroExtent⟩).ExtentGhostThickness.x1,
        (0 : Int) - (applyGhostLayerEvents 3
          [(1, ⟨⟨⟨2, 5, 0, 4, 0, 0⟩, 2, ⟨0, 0, 0⟩, ⟨1, 1, 1⟩, ⟨1, 0, 0, 0⟩⟩,
              ⟨2, 5, 0, 4, 0, 0⟩, 0⟩)] ⟨⟨0, 2, 0, 4, 0, 0⟩, zeroExtent⟩).ExtentGhostThickness.y0,
        (4 : Int) + (applyGhostLayerEvents 3
          [(1, ⟨⟨⟨2, 5, 0, 4, 0, 0⟩, 2, ⟨0, 0, 0⟩, ⟨1, 1, 1⟩, ⟨1, 0, 0, 0⟩⟩,
              ⟨2, 5, 0, 4, 0, 0⟩, 0⟩)] ⟨⟨0, 2, 0, 4, 0, 0⟩, zeroExtent⟩).ExtentGhostThickness.y1,
        (0 : Int) - (applyGhostLayerEvents 3
          [(1, ⟨⟨⟨2, 5, 0, 4, 0, 0⟩, 2, ⟨0, 0, 0⟩, ⟨1, 1, 1⟩, ⟨1, 0, 0, 0⟩⟩,
              ⟨2, 5, 0, 4, 0, 0⟩, 0⟩)] ⟨⟨0, 2, 0, 4, 0, 0⟩, zeroExtent⟩).ExtentGhostThickness.z0,
        (0 : Int) + (applyGhostLayerEvents 3
          [(1, ⟨⟨⟨2, 5, 0, 4, 0, 0⟩, 2, ⟨0, 0, 0⟩, ⟨1, 1, 1⟩, ⟨1, 0, 0, 0⟩⟩,
              ⟨2, 5, 0, 4, 0, 0⟩, 0⟩)] ⟨⟨0, 2, 0, 4, 0, 0⟩, zeroExtent⟩).ExtentGhostThickness.z1⟩ :=
  ⟨by decide, by decide,
    (UpdateOutputGridStructure_spec 3 (by decide) ⟨0, 2, 0, 4, 0, 0⟩ (by decide)
      [(1, ⟨⟨⟨2, 5, 0, 4, 0, 0⟩, 2, ⟨0, 0, 0⟩, ⟨1, 1, 1⟩, ⟨1, 0, 0, 0⟩⟩,
          ⟨2, 5, 0, 4, 0, 0⟩, 0⟩)]).1⟩

/-- Testing a single-bit mask against a value reads the corresponding bit. -/
theorem and_bit_ne_zero (n : Nat) :
    ((n &&& 2 ≠ 0) ↔ n.testBit 1 = true) ∧ ((n &&& 8 ≠ 0) ↔ n.testBit 3 = true) ∧
    ((n &&& 32 ≠ 0) ↔ n.testBit 5 = true) := by
  refine ⟨?_, ?_, ?_⟩
  · rw [show (2 : Nat) = 2 ^ 1 from rfl, Nat.and_two_pow]
    cases h : n.testBit 1 <;> simp
  · rw [show (8 : Nat) = 2 ^ 3 from rfl, Nat.and_two_pow]
    cases h : n.testBit 3 <;> simp
  · rw [show (32 : Nat) = 2 ^ 5 from rfl, Nat.and_two_pow]
    cases h : n.testBit 5 <;> simp

/-- C7: the interface point-id computation enumerates the closed intersection
box of the two extents in row-major order (`k` outer, `j` middle, `i` inner),
with the max index of an axis decremented by one exactly when the adjacency
mask has the Right (bit 1), Back (bit 3) or Top (bit 5) bit set; the
output-side variant is the same computation with the adjacency mask shifted
left by one bit, which maps the Left/Front/Bottom bits onto the tested
Right/Back/Top bits and so mirrors each axis. -/
theorem ComputeGridInterfacePointIds_spec :
    (∀ (adjacencyMask : Nat) (localExtent extent : ExtentType)
        (pointId : Int → Int → Int → Int),
      ComputeGridInterfacePointIds adjacencyMask localExtent extent pointId =
        (intRangeList (max extent.z0 localExtent.z0)
            (min extent.z1 localExtent.z1 -
              (if adjacencyMask.testBit 5 then 1 else 0))).flatMap (fun k =>
          (intRangeList (max extent.y0 localExtent.y0)
              (min extent.y1 localExtent.y1 -
                (if adjacencyMask.testBit 3 then 1 else 0))).flatMap (fun j =>
            (intRangeList (max extent.x0 localExtent.x0)
                (min extent.x1 localExtent.x1 -
                  (if adjacencyMask.testBit 1 then 1 else 0))).map (fun i =>
              pointId i j k)))) ∧
    (∀ (adjacencyMask : Nat) (gridExtent extent : ExtentType)
        (pointId : Int → Int → Int → Int),
      ComputeOutputGridInterfacePointIds adjacencyMask gridExtent extent pointId =
        ComputeGridInterfacePointIds (adjacencyMask <<< 1) gridExtent extent pointId) ∧
    (∀ adjacencyMask : Nat,
      ((adjacencyMask <<< 1).testBit 1 = adjacencyMask.testBit 0) ∧
      ((adjacencyMask <<< 1).testBit 3 = adjacencyMask.testBit 2) ∧
      ((adjacencyMask <<< 1).testBit 5 = adjacencyMask.testBit 4)) := by
  refine ⟨?_, fun _ _ _ _ => rfl, ?_⟩
  · intro adjacencyMask localExtent extent pointId
    obtain ⟨hb1, hb3, hb5⟩ := and_bit_ne_zero adjacencyMask
    by_cases h1 : adjacencyMask.testBit 1 = true <;>
      by_cases h3 : adjacencyMask.testBit 3 = true <;>
      by_cases h5 : adjacencyMask.testBit 5 = true <;>
      simp [ComputeGridInterfacePointIds, Adjacency.Right, Adjacency.Back,
        Adjacency.Top, hb1, hb3, hb5, h1, h3, h5]
  · intro adjacencyMask
    refine ⟨?_, ?_, ?_⟩ <;> simp [Nat.testBit_shiftLeft]

/-- C8 (amended): every block is processed independently (an invalid peer
aborts nobody), and a block whose extent has `min > max` on some axis has its
`BlockStructures` map cleared during link-map computation and ends with an
empty link set — so it exchanges nothing in the field-payload round.  (It
does, however, still participate in the descriptor exchange round; see the
counterexample.) -/
theorem ComputeGridLinkMap_invalid_spec (ops : FloatOps) (g : Int) :
    (∀ blocks : List ImageBlockInput,
      ComputeGridLinkMapAndAllocateGhosts ops g blocks =
        blocks.map (processGridBlock ops g)) ∧
    (∀ block : ImageBlockInput, IsExtentValid block.Extent = false →
      (processGridBlock ops g block).BlockStructures = [] ∧
      (processGridBlock ops g block).Links = []) := by
  refine ⟨fun _ => rfl, ?_⟩
  intro block hinv
  simp only [IsExtentValid, Bool.and_eq_false_iff, decide_eq_false_iff_not,
    not_le] at hinv
  simp only [processGridBlock]
  rw [if_pos]
  · exact ⟨rfl, rfl⟩
  · simp only [Bool.or_eq_true, decide_eq_true_eq, gt_iff_lt]
    omega

/-- Witness for C8 (amended): a concrete block with inverted extent and one
received block structure is cleared and linked to nobody. -/
theorem ComputeGridLinkMap_invalid_spec_witness :
    IsExtentValid ⟨1, 0, 0, 0, 0, 0⟩ = false ∧
    ((processGridBlock ⟨fun a b => a == b, 1, fun q => ⌊q⌋⟩ 1
        ⟨⟨1, 0, 0, 0, 0, 0⟩, ⟨0, 0, 0⟩, ⟨1, 1, 1⟩, ⟨1, 0, 0, 0⟩, 3, 3,
          [(7, ⟨⟨⟨0, 1, 0, 1, 0, 1⟩, 3, ⟨0, 0, 0⟩, ⟨1, 1, 1⟩, ⟨1, 0, 0, 0⟩⟩,
              ⟨0, 1, 0, 1, 0, 1⟩, 0⟩)]⟩).BlockStructures = [] ∧
      (processGridBlock ⟨fun a b => a == b, 1, fun q => ⌊q⌋⟩ 1
        ⟨⟨1, 0, 0, 0, 0, 0⟩, ⟨0, 0, 0⟩, ⟨1, 1, 1⟩, ⟨1, 0, 0, 0⟩, 3, 3,
          [(7, ⟨⟨⟨0, 1, 0, 1, 0, 1⟩, 3, ⟨0, 0, 0⟩, ⟨1, 1, 1⟩, ⟨1, 0, 0, 0⟩⟩,
              ⟨0, 1, 0, 1, 0, 1⟩, 0⟩)]⟩).Links = []) :=
  ⟨by decide,
    (ComputeGridLinkMap_invalid_spec ⟨fun a b => a == b, 1, fun q => ⌊q⌋⟩ 1).2
      ⟨⟨1, 0, 0, 0, 0, 0⟩, ⟨0, 0, 0⟩, ⟨1, 1, 1⟩, ⟨1, 0, 0, 0⟩, 3, 3,
        [(7, ⟨⟨⟨0, 1, 0, 1, 0, 1⟩, 3, ⟨0, 0, 0⟩, ⟨1, 1, 1⟩, ⟨1, 0, 0, 0⟩⟩,
            ⟨0, 1, 0, 1, 0, 1⟩, 0⟩)]⟩ (by decide)⟩

/-- C8 counterexample: in the descriptor exchange round
(`ExchangeBlockStructures`, `vtkImageData` overload), a block whose peeled
extent is invalid still enqueues its full descriptor to every other block —
it does NOT send nothing in that exchange round.  (`PeelOffGhostLayers`
returns the inverted input extent unchanged since no ghost array is
present.) -/
theorem ExchangeBlockStructuresImage_invalid_sends :
    PeelOffGhostLayers ⟨1, 0, 0, 0, 0, 0⟩ none 1 = ⟨1, 0, 0, 0, 0, 0⟩ ∧
    IsExtentValid ⟨1, 0, 0, 0, 0, 0⟩ = false ∧
    ExchangeBlockStructuresImageSends 0 ⟨1, 0, 0, 0, 0, 0⟩ ⟨0, 0, 0⟩ ⟨1, 1, 1⟩
        ⟨1, 0, 0, 0⟩ 3 [0, 1] =
      [(1, ⟨⟨1, 0, 0, 0, 0, 0⟩, 3, ⟨0, 0, 0⟩, ⟨1, 1, 1⟩, ⟨1, 0, 0, 0⟩⟩)] ∧
    ExchangeBlockStructuresImageSends 0 ⟨1, 0, 0, 0, 0, 0⟩ ⟨0, 0, 0⟩ ⟨1, 1, 1⟩
        ⟨1, 0, 0, 0⟩ 3 [0, 1] ≠ [] := by
  refine ⟨rfl, by decide, rfl, by simp [ExchangeBlockStructuresImageSends]⟩

set_option maxHeartbeats 2000000 in
/-- C9: hidden-ghost painting is idempotent — running `FillGridHiddenGhosts` a
second time on the result of a first run (with the same output extent and
information extent, which the painting never modifies) leaves both the
cell-ghost and the point-ghost arrays unchanged. -/
theorem FillGridHiddenGhosts_idempotent (localExtent localExtentWithNoGhosts : ExtentType)
    (ghostCellArray ghostPointArray : GhostArray) :
    FillGridHiddenGhosts localExtent localExtentWithNoGhosts
        (FillGridHiddenGhosts localExtent localExtentWithNoGhosts
          ghostCellArray ghostPointArray).1
        (FillGridHiddenGhosts localExtent localExtentWithNoGhosts
          ghostCellArray ghostPointArray).2 =
      FillGridHiddenGhosts localExtent localExtentWithNoGhosts
        ghostCellArray ghostPointArray := by
  rw [Prod.ext_iff]
  constructor <;> funext i j k <;>
    simp only [FillGridHiddenGhosts, ite_apply] <;>
    split_ifs <;>
    first
      | rfl
      | (simp only [FillGridCellArray, FillGridPointArray]; split_ifs <;> rfl)

end VTKGhost
